import Mathlib

set_option maxRecDepth 1000000

/-!
Verification of the anonymization engine of the radiology-report-anonymizer
repository (src/model/anonymizer_functions.py) against its specification.

The engine is embedded shallowly: strings are lists of characters, the
mutable engine state (working text, replacement dictionary, counter,
original report, accumulated span records) is threaded explicitly, and
Python regular-expression operations are modelled by a small executable
matcher covering exactly the pattern forms that the source constructs
(literal strings with word boundaries and one-character lookarounds,
fixed-width literal lookbehinds, digit runs, optional single characters,
bounded gaps, and a single capture group).  The lookup resources
(name lists, title lists, cue lists, ...) are opaque inputs of the engine;
they are instantiated below with small concrete tables.
-/

set_option maxHeartbeats 4000000

namespace RRA

/-- Strings of the embedding: lists of characters. -/
abbrev Str := List Char

/-- ASCII decimal digits (the repertoire of Python str.isdigit relevant here). -/
def digitChars : Str := "0123456789".data

/-- ASCII uppercase letters. -/
def upperChars : Str := "ABCDEFGHIJKLMNOPQRSTUVWXYZ".data

/-- ASCII lowercase letters. -/
def lowerChars : Str := "abcdefghijklmnopqrstuvwxyz".data

def isDigitChar (c : Char) : Bool := digitChars.contains c

def isUpperChar (c : Char) : Bool := upperChars.contains c

def isLowerChar (c : Char) : Bool := lowerChars.contains c

def isLetterChar (c : Char) : Bool := isUpperChar c || isLowerChar c

/-- Word characters of the regex dialect (ASCII scope): letters, digits, underscore. -/
def isWordChar (c : Char) : Bool := isLetterChar c || isDigitChar c || c = '_'

/-- Whitespace characters recognised by Python str.split() / str.strip(). -/
def wsChars : Str := [' ', '\t', '\n', '\r', '\x0b', '\x0c']

def isWsChar (c : Char) : Bool := wsChars.contains c

/-- ASCII lowercasing, as Python str.lower on the ASCII repertoire. -/
def lowChar (c : Char) : Char := if isUpperChar c then Char.ofNat (c.toNat + 32) else c

def lowStr (s : Str) : Str := s.map lowChar

/-- ASCII uppercasing, as Python str.upper on the ASCII repertoire. -/
def upChar (c : Char) : Char := if isLowerChar c then Char.ofNat (c.toNat - 32) else c

def upStr (s : Str) : Str := s.map upChar

/-- Python s.isdigit() (ASCII): nonempty and all digits. -/
def pyIsDigit (s : Str) : Bool := !s.isEmpty && s.all isDigitChar

/-- Python s.isalpha() (ASCII): nonempty and all letters. -/
def pyIsAlpha (s : Str) : Bool := !s.isEmpty && s.all isLetterChar

/-- Python s.isupper() (ASCII): has a cased character and no lowercase one. -/
def pyIsUpper (s : Str) : Bool := s.any isLetterChar && !s.any isLowerChar

/-- Numeric value of a digit string, as Python int() on validated input. -/
def strToNat (s : Str) : Nat := s.foldl (fun a c => a * 10 + (c.toNat - '0'.toNat)) 0

/-- Decimal rendering of a natural number, as Python str(): most significant
digit first (the fuel n+1 always suffices). -/
def natToStrAux : Nat → Nat → Str → Str
  | 0, _, acc => acc
  | fuel + 1, n, acc =>
      let d := Char.ofNat (n % 10 + 48)
      if n / 10 = 0 then d :: acc else natToStrAux fuel (n / 10) (d :: acc)

def natToStr (n : Nat) : Str := natToStrAux (n + 1) n []

/-- Split on a single separator character, keeping empty parts
(Python s.split(sep)). -/
def splitOnChar (sep : Char) : Str → List Str
  | [] => [[]]
  | c :: cs =>
      let r := splitOnChar sep cs
      if c = sep then [] :: r
      else match r with
        | [] => [[c]]
        | p :: ps => (c :: p) :: ps

/-- Split on a character predicate, keeping empty parts
(Python re.split over a character class). -/
def splitOnPred (sep : Char → Bool) : Str → List Str
  | [] => [[]]
  | c :: cs =>
      let r := splitOnPred sep cs
      if sep c then [] :: r
      else match r with
        | [] => [[c]]
        | p :: ps => (c :: p) :: ps

/-- Python s.split() with no argument: split on whitespace runs, dropping
empty parts. -/
def pyWsSplit (s : Str) : List Str :=
  (splitOnPred isWsChar s).filter (fun p => !p.isEmpty)

/-- Python re.split with a one-character capturing group, e.g. re.split("(u)", s):
the separator is kept between the parts. -/
def splitKeepChar (sep : Char) (s : Str) : List Str :=
  match splitOnChar sep s with
  | [] => []
  | p :: ps => p :: ps.foldr (fun q acc => [sep] :: q :: acc) []

/-- Join with a separator string (Python sep.join). -/
def joinSep (sep : Str) : List Str → Str
  | [] => []
  | [x] => x
  | x :: xs => x ++ sep ++ joinSep sep xs

/-- Python s.strip(). -/
def pyStrip (s : Str) : Str :=
  ((s.dropWhile isWsChar).reverse.dropWhile isWsChar).reverse

/-- Leftmost occurrence test for a literal substring (Python "in"). -/
def startsWithStr : Str → Str → Bool
  | [], _ => true
  | _ :: _, [] => false
  | n :: ns, h :: hs => n = h && startsWithStr ns hs

def containsSub (needle hay : Str) : Bool :=
  match hay with
  | [] => needle.isEmpty
  | _ :: hs => startsWithStr needle hay || containsSub needle hs

/-- Python s.find(sub): leftmost index, or -1. -/
def pyFindAux (needle : Str) : Str → Nat → Option Nat
  | [], i => if needle.isEmpty then some i else none
  | c :: hs, i =>
      if startsWithStr needle (c :: hs) then some i else pyFindAux needle hs (i + 1)

def pyFind (hay needle : Str) : Int :=
  match pyFindAux needle hay 0 with
  | some i => (i : Int)
  | none => -1

/-- Python s.index(sub) on the success path (callers guard with "in"). -/
def pyIndex (hay needle : Str) : Nat :=
  match pyFindAux needle hay 0 with
  | some i => i
  | none => 0

/-- Python s.replace(a, b): replace every occurrence of the literal a, left to
right, non-overlapping.  (a is nonempty at every call site; the fuel is the
length of the haystack, enough for every step.) -/
def pyReplaceFuel (needle repl : Str) : Nat → Str → Str
  | 0, hay => hay
  | fuel + 1, hay =>
      match hay with
      | [] => []
      | c :: hs =>
          if startsWithStr needle hay && !needle.isEmpty then
            repl ++ pyReplaceFuel needle repl fuel (hs.drop (needle.length - 1))
          else
            c :: pyReplaceFuel needle repl fuel hs

def pyReplace (hay needle repl : Str) : Str :=
  pyReplaceFuel needle repl hay.length hay

/-!
## Regex engine

An executable matcher for the regular-expression fragment that
anonymizer_functions.py constructs: literal strings, one-character classes,
greedy p*, p+, p{,n}, optional pieces, sequencing, a single capture group,
word boundaries, fixed-width literal lookbehinds (positive and negative) and
negative lookaheads.  Matching follows Python re semantics on this fragment:
leftmost match wins, quantifiers are greedy with backtracking.
-/

/-- Patterns.  In lookaround atoms the character predicates are listed in
text order and describe a fixed-width window. -/
inductive Rx where
  | eps : Rx
  | str : Str → Rx
  | cls : (Char → Bool) → Rx
  | star : (Char → Bool) → Rx
  | plus : (Char → Bool) → Rx
  | upTo : Nat → (Char → Bool) → Rx
  | opt : Rx → Rx
  | seq : Rx → Rx → Rx
  | grp : Rx → Rx
  | wordB : Rx
  | behind : List (Char → Bool) → Rx
  | notBehind : List (Char → Bool) → Rx
  | notAhead : List (Char → Bool) → Rx

/-- Sequence a list of patterns. -/
def Rx.cat (rs : List Rx) : Rx := rs.foldr Rx.seq Rx.eps

/-- Does the reversed left context start with the reversed window of
predicates?  (The window preds come in text order.) -/
def windowBehind (preds : List (Char → Bool)) (left : Str) : Bool :=
  go preds.reverse left
where
  go : List (Char → Bool) → Str → Bool
    | [], _ => true
    | _ :: _, [] => false
    | p :: ps, c :: cs => p c && go ps cs

/-- Does the right context start with the window of predicates? -/
def windowAhead : List (Char → Bool) → Str → Bool
  | [], _ => true
  | _ :: _, [] => false
  | p :: ps, c :: cs => p c && windowAhead ps cs

/-- Word-boundary test between the reversed left context and the rest. -/
def atWordB (left rest : Str) : Bool :=
  let l := match left with | [] => false | c :: _ => isWordChar c
  let r := match rest with | [] => false | c :: _ => isWordChar c
  l != r

/-- Drop a literal from the front, or fail. -/
def dropLit : Str → Str → Option Str
  | [], rest => some rest
  | _ :: _, [] => none
  | n :: ns, c :: cs => if n = c then dropLit ns cs else none

/-- Greedy split list for a starred character class: the matched parts,
longest first, paired with the corresponding rest. -/
def greedySplits (p : Char → Bool) (rest : Str) : List (Str × Str) :=
  match rest with
  | [] => [([], [])]
  | c :: cs =>
      if p c then
        (greedySplits p cs).map (fun x => (c :: x.1, x.2)) ++ [([], rest)]
      else [([], rest)]

/-- Outcomes of matching a pattern at a position: matched text (in order),
remaining text, captured group, in backtracking preference order.
The reversed left context is threaded for lookbehinds and boundaries. -/
def Rx.run : Rx → Str → Str → List (Str × Str × Option Str)
  | .eps, _, rest => [([], rest, none)]
  | .str s, _, rest =>
      match dropLit s rest with
      | some rest' => [(s, rest', none)]
      | none => []
  | .cls p, _, rest =>
      match rest with
      | [] => []
      | c :: cs => if p c then [([c], cs, none)] else []
  | .star p, _, rest =>
      (greedySplits p rest).map (fun x => (x.1, x.2, none))
  | .plus p, _, rest =>
      ((greedySplits p rest).filter (fun x => !x.1.isEmpty)).map
        (fun x => (x.1, x.2, none))
  | .upTo n p, _, rest =>
      ((greedySplits p rest).filter (fun x => x.1.length ≤ n)).map
        (fun x => (x.1, x.2, none))
  | .opt r, left, rest => r.run left rest ++ [([], rest, none)]
  | .seq a b, left, rest =>
      (a.run left rest).flatMap (fun x =>
        (b.run (x.1.reverse ++ left) x.2.1).map
          (fun y => (x.1 ++ y.1, y.2.1, x.2.2 <|> y.2.2)))
  | .grp r, left, rest =>
      (r.run left rest).map (fun x => (x.1, x.2.1, x.2.2 <|> some x.1))
  | .wordB, left, rest => if atWordB left rest then [([], rest, none)] else []
  | .behind w, left, rest =>
      if windowBehind w left then [([], rest, none)] else []
  | .notBehind w, left, rest =>
      if windowBehind w left then [] else [([], rest, none)]
  | .notAhead w, _, rest =>
      if windowAhead w rest then [] else [([], rest, none)]

/-- First (preferred) match of a pattern anchored at the current position. -/
def Rx.firstHere (rx : Rx) (left rest : Str) : Option (Str × Str × Option Str) :=
  (rx.run left rest).head?

/-- Scan left to right for the leftmost match.  Returns the reversed prior
context at the match, the matched text, the rest, and the group. -/
def scanFrom (rx : Rx) : Str → Str → Option (Str × Str × Str × Option Str)
  | left, [] =>
      match rx.firstHere left [] with
      | some (m, rest', g) => some (left, m, rest', g)
      | none => none
  | left, c :: cs =>
      match rx.firstHere left (c :: cs) with
      | some (m, rest', g) => some (left, m, rest', g)
      | none => scanFrom rx (c :: left) cs

/-- All matches, left to right, Python findall style: after a match the scan
resumes at its end (advancing one character on an empty match).  Each result
is the captured group when the pattern has one, the whole match otherwise. -/
def findAllFuel (rx : Rx) : Nat → Str → Str → List Str
  | 0, _, _ => []
  | fuel + 1, left, rest =>
      match scanFrom rx left rest with
      | none => []
      | some (lm, m, rest', g) =>
          let val := match g with | some s => s | none => m
          if m.isEmpty then
            match rest' with
            | [] => [val]
            | c :: cs => val :: findAllFuel rx fuel (c :: lm) cs
          else
            val :: findAllFuel rx fuel (m.reverse ++ lm) rest'

def pyFindAll (rx : Rx) (text : Str) : List Str :=
  findAllFuel rx (text.length + 1) [] text

/-- All matches with positions (Python finditer): (start, end, matched text). -/
def findIterFuel (rx : Rx) : Nat → Str → Str → List (Nat × Nat × Str)
  | 0, _, _ => []
  | fuel + 1, left, rest =>
      match scanFrom rx left rest with
      | none => []
      | some (lm, m, rest', _) =>
          let s := lm.length
          let e := s + m.length
          if m.isEmpty then
            match rest' with
            | [] => [(s, e, m)]
            | c :: cs => (s, e, m) :: findIterFuel rx fuel (c :: lm) cs
          else
            (s, e, m) :: findIterFuel rx fuel (m.reverse ++ lm) rest'

def pyFindIter (rx : Rx) (text : Str) : List (Nat × Nat × Str) :=
  findIterFuel rx (text.length + 1) [] text

/-- Python re.sub(pattern, repl, text, count=1) with a literal replacement:
replace the leftmost match of the whole pattern. -/
def pySubFirst (rx : Rx) (repl text : Str) : Str :=
  match scanFrom rx [] text with
  | none => text
  | some (lm, _, rest', _) => lm.reverse ++ repl ++ rest'

/-- Splice a replacement over an ordered list of non-overlapping absolute
(start, end) spans; off is the index where the remaining text begins. -/
def spliceFrom (repl : Str) : List (Nat × Nat) → Nat → Str → Str
  | [], _, t => t
  | (s, e) :: ms, off, t =>
      t.take (s - off) ++ repl ++ spliceFrom repl ms e (t.drop (e - off))

/-- Python re.sub(pattern, repl, text) with a literal replacement: all
matches are located on the original text, then replaced. -/
def pySubAll (rx : Rx) (repl text : Str) : Str :=
  spliceFrom repl ((pyFindIter rx text).map (fun x => (x.1, x.2.1))) 0 text

/-- One-character literal predicate. -/
def chP (c : Char) : Char → Bool := fun x => x = c

/-- Literal lookaround window. -/
def litW (s : Str) : List (Char → Bool) := s.map chP

def anyP : Char → Bool := fun _ => true

/-!
## Engine state and substitution primitives

The mutable state of Anonymizer during one report: the working text, the
replacement dictionary (insertion-ordered, as a Python dict) and the counter.
-/

structure SubState where
  text : Str
  dict : List (Str × Str)
  counter : Nat
deriving Repr

/-- Python dict assignment d[k] = v. -/
def dictSet (d : List (Str × Str)) (k v : Str) : List (Str × Str) :=
  if d.any (fun e => e.1 = k) then d.map (fun e => if e.1 = k then (k, v) else e)
  else d ++ [(k, v)]

/-- Python dict lookup d[k] (None marks a KeyError). -/
def dictGet (d : List (Str × Str)) (k : Str) : Option Str :=
  (d.find? (fun e => e.1 = k)).map (fun e => e.2)

/-- re.sub("\$|([0-9]+)", str(counter), t_id): every dollar sign and every
maximal digit run of the label template becomes the counter value. -/
def stampWithFuel (d : Str) : Nat → Str → Str
  | 0, _ => []
  | fuel + 1, s =>
      match s with
      | [] => []
      | c :: cs =>
          if c = '$' then d ++ stampWithFuel d fuel cs
          else if isDigitChar c then d ++ stampWithFuel d fuel (cs.dropWhile isDigitChar)
          else c :: stampWithFuel d fuel cs

def stampWith (d s : Str) : Str := stampWithFuel d s.length s

def stamp (tmpl : Str) (n : Nat) : Str := stampWith (natToStr n) tmpl

/-- Shared loop of the substitution primitives: for each previously found
match, stamp the label template with the current counter, replace the first
remaining occurrence (via the primitive's own pattern builder), record the
mapping and advance the counter. -/
def applyMatches (mkRx : Str → Rx) (tmpl : Str) (ms : List Str) (st : SubState) :
    SubState :=
  ms.foldl (fun s m =>
    let tid := stamp tmpl s.counter
    { text := pySubFirst (mkRx m) tid s.text
      dict := dictSet s.dict tid m
      counter := s.counter + 1 }) st

/-- Pattern of replace_text:
\b(?<!/)(?<!-)(?<!_) literal \b(?!/)(?!-)(?!_). -/
def replaceTextRx (L : Str) : Rx :=
  Rx.cat [Rx.wordB, Rx.notBehind [chP '/'], Rx.notBehind [chP '-'],
    Rx.notBehind [chP '_'], Rx.str L, Rx.wordB,
    Rx.notAhead [chP '/'], Rx.notAhead [chP '-'], Rx.notAhead [chP '_']]

/-- Anonymizer.replace_text. -/
def replace_text (st : SubState) (input tmpl : Str) : SubState :=
  applyMatches replaceTextRx tmpl (pyFindAll (replaceTextRx input) st.text) st

/-- Anonymizer.replace_text_no_escape: the pattern is the escaped literal
with no boundary conditions. -/
def replace_text_no_escape (st : SubState) (input tmpl : Str) : SubState :=
  applyMatches Rx.str tmpl (pyFindAll (Rx.str input) st.text) st

/-- Pattern of replace_text_end_dot: \b literal. -/
def endDotRx (L : Str) : Rx := Rx.cat [Rx.wordB, Rx.str L]

/-- Anonymizer.replace_text_end_dot. -/
def replace_text_end_dot (st : SubState) (input tmpl : Str) : SubState :=
  applyMatches endDotRx tmpl (pyFindAll (endDotRx input) st.text) st

/-- Anonymizer.replace_text_all_end_dot (same body as replace_text_end_dot). -/
def replace_text_all_end_dot (st : SubState) (input tmpl : Str) : SubState :=
  applyMatches endDotRx tmpl (pyFindAll (endDotRx input) st.text) st

/-- The lookbehind conjunction "(?<!" + ".)(?<!".join(abbrevs) + ".)" of
replace_text_no_hyphen.  With an empty abbreviation list the constructed
string is "(?<!.)" (a single any-character lookbehind). -/
def noHyphenLbs (wl : List Str) : List Rx :=
  if wl.isEmpty then [Rx.notBehind [anyP]]
  else wl.map (fun s => Rx.notBehind (litW s ++ [anyP]))

/-- Pattern of replace_text_no_hyphen; the trailing \b is dropped when the
input ends with a dot. -/
def noHyphenRx (wl : List Str) (L : Str) : Rx :=
  if L.getLast? = some '.' then
    Rx.cat ([Rx.wordB, Rx.notBehind [chP '-']] ++ noHyphenLbs wl ++
      [Rx.str L, Rx.notAhead [chP '-']])
  else
    Rx.cat ([Rx.wordB, Rx.notBehind [chP '-']] ++ noHyphenLbs wl ++
      [Rx.str L, Rx.wordB, Rx.notAhead [chP '-']])

/-- Anonymizer.replace_text_no_hyphen (wl is the abbreviation whitelist). -/
def replace_text_no_hyphen (wl : List Str) (st : SubState) (input tmpl : Str) :
    SubState :=
  applyMatches (noHyphenRx wl) tmpl (pyFindAll (noHyphenRx wl input) st.text) st

/-- The lookbehind/lookahead exception lists of replace_text_with_exceptions
also include the uppercased variants of alphabetic entries. -/
def withCaps (l : List Str) : List Str := l ++ (l.filter pyIsAlpha).map upStr

/-- Pattern of replace_text_with_exceptions:
\b(?<!/)(?<!-)(?<!_) (?<!s )(?<!s [(]) ... literal (?! s) ... (?!/)(?!-)(?!_)\b
where the s range over the exception strings with their uppercase variants. -/
def withExcRx (lbs las : List Str) (L : Str) : Rx :=
  Rx.cat ([Rx.wordB, Rx.notBehind [chP '/'], Rx.notBehind [chP '-'],
      Rx.notBehind [chP '_']] ++
    lbs.flatMap (fun s =>
      [Rx.notBehind (litW (s ++ [' '])), Rx.notBehind (litW (s ++ [' ', '(']))]) ++
    [Rx.str L] ++
    las.map (fun s => Rx.notAhead (litW ([' '] ++ s))) ++
    [Rx.notAhead [chP '/'], Rx.notAhead [chP '-'], Rx.notAhead [chP '_'], Rx.wordB])

/-- Anonymizer.replace_text_with_exceptions.  The RECIST-table region is
computed once on the current text; matches inside it are skipped.
recistDelims = (begin_word, end_word). -/
def replace_text_with_exceptions (recistDelims : Str × Str) (st : SubState)
    (input : Str) (lbsRaw lasRaw : List Str) (tmpl : Str) (recist : Bool) :
    SubState :=
  let lbs := withCaps lbsRaw
  let las := withCaps lasRaw
  let lowText := lowStr st.text
  let region : Nat × Int :=
    if recist && containsSub recistDelims.1 lowText then
      (pyIndex lowText recistDelims.1,
        if containsSub recistDelims.2 lowText then (pyIndex lowText recistDelims.2 : Int)
        else (st.text.length : Int) - 1)
    else (st.text.length, -1)
  let ms := pyFindIter (withExcRx lbs las input) st.text
  ms.foldl (fun s x =>
    if (x.1 : Int) > region.2 || (x.2.1 : Int) < (region.1 : Int) then
      let tid := stamp tmpl s.counter
      { text := pySubFirst (withExcRx lbs las x.2.2) tid s.text
        dict := dictSet s.dict tid x.2.2
        counter := s.counter + 1 }
    else s) st

/-- Anonymizer.replace_text_persons: the pattern is given directly; each
found match (the capture group when the pattern has one) is replaced at its
first literal occurrence. -/
def replace_text_persons (st : SubState) (rx : Rx) (tmpl : Str) : SubState :=
  applyMatches Rx.str tmpl (pyFindAll rx st.text) st

/-!
## Lookup resources

The engine consumes its lookup tables as opaque, pre-loaded data (the config
files are not part of the core).  A Resources value carries them; the
derived tables below mirror the computations of Anonymizer.__init__.
-/

structure Resources where
  whitelist_full : List Str
  whitelist_abbreviated : List Str
  days : List Str
  days_abbreviated : List Str
  months : List Str
  months_abbreviated : List Str
  family_names_raw : List Str
  first_names_raw : List Str
  dutch_cities_raw : List Str
  titles_before_full : List Str
  titles_before_abbr : List Str
  titles_after_full : List Str
  titles_after_abbr : List Str
  cues_person_before : List Str
  cues_person_after : List Str
  cues_phone_before : List Str
  cues_location_before : List Str
  neg_lb_dates : List Str
  neg_la_dates : List Str
  neg_lb_times : List Str
  neg_la_times : List Str
  recist_begin : Str
  recist_end : Str

/-- unidecode on the ASCII repertoire used throughout this development is the
identity. -/
def unidec (s : Str) : Str := s

/-- Anonymizer.process_family_names: lowercase, expand "Last, First" into
both orders, drop one-character residues.  (The Python set only feeds
membership tests, so a duplicate-preserving list is an adequate model.) -/
def process_family_names (raw : List Str) : List Str :=
  (raw.flatMap (fun i =>
      let parts := splitOnChar ',' (lowStr i)
      match parts with
      | p0 :: p1 :: _ =>
          [pyStrip p1 ++ [' '] ++ pyStrip p0, pyStrip p0 ++ [' '] ++ pyStrip p1]
      | [p0] => [p0]
      | [] => [])).filterMap (fun x =>
    if (unidec x).length > 1 then some (unidec x) else none)

def Resources.family_names (R : Resources) : List Str :=
  process_family_names R.family_names_raw

def Resources.first_names (R : Resources) : List Str :=
  (R.first_names_raw.map (fun s => lowStr (pyStrip s))).filterMap (fun x =>
    if (unidec x).length > 1 then some (unidec x) else none)

def Resources.dutch_cities (R : Resources) : List Str :=
  R.dutch_cities_raw.map (fun s => lowStr (pyStrip s))

/-- self.whitelist after __init__.  Note: the source unions the whitelist
with the day/month dictionaries themselves, so the dictionary keys
"full" and "abbreviated" are added, not the day or month names. -/
def Resources.whitelist (R : Resources) : List Str :=
  R.whitelist_full ++ ["full".data, "abbreviated".data]

/-!
## Cleaning and tokenization
-/

/-- The " *\n *" pattern. -/
def nlPad : Rx := Rx.cat [Rx.star (chP ' '), Rx.str ['\n'], Rx.star (chP ' ')]

/-- Anonymizer.clean_report. -/
def clean_report (r : Str) : Str :=
  let r1 := pySubAll (Rx.plus (chP ' ')) [' '] r
  let r2 := pySubAll nlPad ['\n'] r1
  let r3 :=
    match scanFrom (Rx.plus (chP '\n')) [] r2 with
    | some (lm, m, _, _) => if lm.isEmpty then pySubFirst (Rx.str m) [] r2 else r2
    | none => r2
  let r4 := pySubAll nlPad ['\n'] r3
  let r5 := pySubAll (Rx.cat [Rx.star (chP ' '), Rx.str ['-'], Rx.star (chP ' ')]) ['-'] r4
  pySubAll (Rx.cat [Rx.star (chP ' '), Rx.str ['/'], Rx.star (chP ' ')]) ['/'] r5

/-- Tokenizer delimiters: re.split("[,;:()!?.]", line). -/
def tokDelims : Str := [',', ';', ':', '(', ')', '!', '?', '.']

/-- One line to tokens: split on the delimiters, rejoin with spaces, then
whitespace-split. -/
def tokenize_line (line : Str) : List Str :=
  pyWsSplit (joinSep [' '] (splitOnPred (fun c => tokDelims.contains c) line))

/-- Contiguous windows of n tokens (nltk.ngrams). -/
def ngrams (n : Nat) (l : List Str) : List (List Str) :=
  if l.length < n then []
  else (List.range (l.length - n + 1)).map (fun i => (l.drop i).take n)

/-- The size-n n-gram stream of Anonymizer.tokenize_reports: per line,
concatenated in line order. -/
def gramsOfSize (n : Nat) (report : Str) : List (List Str) :=
  ((splitOnChar '\n' report).map tokenize_line).flatMap (ngrams n)

/-!
## Entity detectors
-/

def headUpper (t : Str) : Bool :=
  match t with
  | [] => false
  | c :: _ => isUpperChar c

/-- Anonymizer.replace_family_names. -/
def replace_family_names (R : Resources) (st : SubState) (tokens : List Str) :
    SubState :=
  let full_string := joinSep [' '] tokens
  let id1 := "<ACHTERNAAM_$>".data
  let id2 := "<W_ACHTERNAAM_$>".data
  let capitals_exist := tokens.any headUpper
  let fam := R.family_names
  let wl := R.whitelist
  -- double family names separated by "-" or "/"
  let st :=
    match splitOnPred (fun c => c = '-' || c = '/') full_string with
    | [t0, t1] =>
        if fam.contains (unidec (lowStr t0)) && fam.contains (unidec (lowStr t1)) &&
            capitals_exist then
          if !wl.contains (unidec (lowStr t0)) && !wl.contains (unidec (lowStr t1)) then
            let st := replace_text_no_escape st ('(' :: (full_string ++ [')'])) id1
            replace_text st full_string id1
          else
            let st := replace_text_no_escape st ('(' :: (full_string ++ [')'])) id2
            replace_text st full_string id2
        else st
    | _ => st
  -- alternative spellings: vd / v/d -> van der, van de, van den; v -> van
  let subWords (a b : Str) : List Str :=
    pyWsSplit (pySubAll (Rx.cat [Rx.wordB, Rx.str a, Rx.wordB]) b full_string)
  let all_tokens :=
    [pyWsSplit full_string,
      subWords "vd".data "van der".data, subWords "v/d".data "van der".data,
      subWords "vd".data "van de".data, subWords "v/d".data "van de".data,
      subWords "vd".data "van den".data, subWords "v/d".data "van den".data,
      subWords "v".data "van".data]
  let ngram_in_familylist :=
    all_tokens.any (fun ts => fam.contains (lowStr (joinSep [' '] ts)))
  if ngram_in_familylist && capitals_exist then
    let withComma :=
      if tokens.length > 1 then
        (List.range (tokens.length - 1)).map (fun i =>
          joinSep [' '] (tokens.mapIdx (fun j t => if j = i then t ++ [','] else t)))
      else []
    let new_family_names := (withComma ++ [joinSep [' '] tokens]).reverse
    new_family_names.foldl (fun st nfn =>
      if !wl.contains (lowStr nfn) then
        let st := replace_text_no_escape st ('(' :: (nfn ++ [')'])) id1
        let st :=
          match nfn with
          | 'v' :: rest => replace_text_no_escape st ('v' :: '.' :: rest) id1
          | _ => st
        replace_text st nfn id1
      else
        let st := replace_text_no_escape st ('(' :: (nfn ++ [')'])) id2
        replace_text st nfn id2) st
  else st

/-- Anonymizer.replace_initials. -/
def replace_initials (R : Resources) (st : SubState) (tokens : List Str) :
    SubState :=
  let id1 := "<INITIALEN_$>".data
  if !(tokens.any (fun t => !pyIsAlpha t)) && !(tokens.any (fun t => !pyIsUpper t)) then
    let st :=
      match tokens with
      | [t] =>
          if t.length < 6 && !R.whitelist_abbreviated.contains t then
            let st := replace_text_no_hyphen R.whitelist_abbreviated st (t ++ ['.']) id1
            replace_text_no_hyphen R.whitelist_abbreviated st t id1
          else st
      | _ => st
    if !(tokens.any (fun t => t.length > 1)) then
      let st := replace_text_all_end_dot st (joinSep ". ".data tokens ++ ['.']) id1
      let st := replace_text_all_end_dot st (joinSep ['.'] tokens ++ ['.']) id1
      let st := replace_text st (joinSep ['.'] tokens) id1
      replace_text st (joinSep [' '] tokens) id1
    else st
  else st

def isMonthTok (R : Resources) (t : Str) : Bool :=
  R.months.contains (lowStr t) || R.months_abbreviated.contains (lowStr t)

def isDayTok (R : Resources) (t : Str) : Bool :=
  R.days.contains (lowStr t) || R.days_abbreviated.contains (lowStr t)

/-- tokens[i][:2] == "19" or tokens[i][:2] == "20". -/
def pfx19or20 (t : Str) : Bool := t.take 2 = "19".data || t.take 2 = "20".data

def inRange (lo hi : Nat) (t : Str) : Bool := lo ≤ strToNat t && strToNat t ≤ hi

/-- Anonymizer.replace_dates, branch for branch. -/
def replace_dates (R : Resources) (st : SubState) (tokens : List Str) : SubState :=
  let id1 := "<DATUM_$>".data
  let delims := (R.recist_begin, R.recist_end)
  let sp := joinSep [' ']
  match tokens with
  | [t0, t1, t2, t3] =>
      -- weekday + day + month + 4-digit year
      if pfx19or20 t3 && t1.length ≤ 2 && t3.length = 4 && pyIsDigit t1 &&
          pyIsDigit t3 && isDayTok R t0 && isMonthTok R t2 then
        if inRange 1 31 t1 then
          let st := replace_text st (sp [t0 ++ ['.'], t1, t2 ++ ['.'], t3]) id1
          let st := replace_text st (sp [t0, t1, t2 ++ ['.'], t3]) id1
          let st := replace_text st (sp [t0 ++ ['.'], t1, t2, t3]) id1
          replace_text st (sp tokens) id1
        else st
      else st
  | [t0, t1, t2] =>
      -- day + month name + 4-digit year
      let st :=
        if pfx19or20 t2 && t0.length ≤ 2 && t2.length = 4 && pyIsDigit t0 &&
            pyIsDigit t2 && isMonthTok R t1 then
          if inRange 1 31 t0 then
            let st := replace_text st (sp [t0, t1 ++ ['.'], t2]) id1
            replace_text st (sp tokens) id1
          else st
        else st
      -- day + month name + 2-digit year
      let st :=
        if t0.length ≤ 2 && t2.length = 2 && pyIsDigit t0 && pyIsDigit t2 &&
            isMonthTok R t1 then
          if inRange 1 31 t0 then
            let st := replace_text st (sp [t0, t1 ++ ['.'], t2]) id1
            replace_text st (sp tokens) id1
          else st
        else st
      -- weekday + day + month name
      let st :=
        if t1.length ≤ 2 && pyIsDigit t1 && isDayTok R t0 && isMonthTok R t2 then
          if inRange 1 31 t1 then
            let st :=
              if R.months_abbreviated.contains (lowStr t2) then
                let st := replace_text_end_dot st (sp [t0 ++ ['.'], t1, t2 ++ ['.']]) id1
                replace_text_end_dot st (sp [t0, t1, t2 ++ ['.']]) id1
              else st
            let st := replace_text st (sp [t0 ++ ['.'], t1, t2]) id1
            replace_text st (sp tokens) id1
          else st
        else st
      -- day + month + 2-digit year, numeric
      let st :=
        if t0.length ≤ 2 && t1.length ≤ 2 && t2.length = 2 && pyIsDigit t0 &&
            pyIsDigit t1 && pyIsDigit t2 then
          if inRange 1 31 t0 && inRange 1 12 t1 then
            let st := replace_text_end_dot st (joinSep ". ".data tokens ++ ['.']) id1
            let st := replace_text st (joinSep ". ".data tokens) id1
            let st := replace_text st (joinSep ['.'] tokens) id1
            replace_text_with_exceptions delims st (sp tokens)
              R.neg_lb_dates R.neg_la_dates id1 true
          else st
        else st
      -- day + month + 4-digit year, numeric
      if t0.length ≤ 2 && t1.length ≤ 2 && t2.length = 4 && pyIsDigit t0 &&
          pyIsDigit t1 && pyIsDigit t2 && pfx19or20 t2 then
        if inRange 1 31 t0 && inRange 1 12 t1 then
          let st := replace_text_end_dot st (joinSep ". ".data tokens ++ ['.']) id1
          let st := replace_text st (joinSep ". ".data tokens) id1
          let st := replace_text st (joinSep ['.'] tokens) id1
          replace_text st (sp tokens) id1
        else st
      else st
  | [t0, t1] =>
      -- month name + 4-digit year
      let st :=
        if t1.length = 4 && pyIsDigit t1 && isMonthTok R t0 && pfx19or20 t1 then
          let st := replace_text st (sp [t0 ++ ['.'], t1]) id1
          replace_text st (sp tokens) id1
        else st
      -- day + month name
      let st :=
        if t0.length ≤ 2 && pyIsDigit t0 && isMonthTok R t1 then
          if inRange 1 31 t0 then
            let st :=
              if R.months_abbreviated.contains (lowStr t1) then
                replace_text_end_dot st (sp [t0, t1 ++ ['.']]) id1
              else st
            replace_text st (sp tokens) id1
          else st
        else st
      -- day-month joined by hyphen or slash + 4-digit year
      let date_text :=
        if t0.contains '-' then splitOnChar '-' t0 else splitOnChar '/' t0
      match date_text with
      | [d0, d1] =>
          if d0.length ≤ 2 && d1.length ≤ 2 && t1.length = 4 && pyIsDigit d0 &&
              pyIsDigit d1 && pyIsDigit t1 && pfx19or20 t1 then
            if inRange 1 31 d0 && inRange 1 12 d1 then
              replace_text_with_exceptions delims st (sp tokens)
                (R.neg_lb_dates.filter (fun p => !p.any isDigitChar)) [] id1 true
            else st
          else st
      | _ => st
  | [t0] =>
      let date_text :=
        if t0.contains '-' then splitOnChar '-' t0 else splitOnChar '/' t0
      -- day + month name + 2-digit year, joined
      let st :=
        match date_text with
        | [d0, d1, d2] =>
            if pyIsDigit d0 && pyIsDigit d2 && d0.length ≤ 2 && d2.length = 2 &&
                isMonthTok R d1 then
              if inRange 1 31 d0 then replace_text st t0 id1 else st
            else st
        | _ => st
      -- 4-digit year + month + day, joined
      let st :=
        match date_text with
        | [d0, d1, d2] =>
            if d0.length = 4 && d1.length ≤ 2 && d2.length ≤ 2 && pyIsDigit d0 &&
                pyIsDigit d1 && pyIsDigit d2 && pfx19or20 d0 then
              if inRange 1 31 d2 && inRange 1 12 d1 then replace_text st t0 id1 else st
            else st
        | _ => st
      -- day + month name + 4-digit year, joined
      let st :=
        match date_text with
        | [d0, d1, d2] =>
            if pyIsDigit d0 && pyIsDigit d2 && d0.length ≤ 2 && d2.length = 4 &&
                pfx19or20 d2 && isMonthTok R d1 then
              if inRange 1 31 d0 then replace_text st t0 id1 else st
            else st
        | _ => st
      -- day + month + 4-digit year, joined
      let st :=
        match date_text with
        | [d0, d1, d2] =>
            if d0.length ≤ 2 && d1.length ≤ 2 && d2.length = 4 && pyIsDigit d0 &&
                pyIsDigit d1 && pyIsDigit d2 && pfx19or20 d2 then
              if inRange 1 31 d0 && inRange 1 12 d1 then replace_text st t0 id1 else st
            else st
        | _ => st
      -- day + month + 2-digit year, joined
      let st :=
        match date_text with
        | [d0, d1, d2] =>
            if d0.length ≤ 2 && d1.length ≤ 2 && d2.length = 2 && pyIsDigit d0 &&
                pyIsDigit d1 && pyIsDigit d2 then
              if inRange 1 31 d0 && inRange 1 12 d1 then replace_text st t0 id1 else st
            else st
        | _ => st
      -- day + 4-digit year, joined
      let st :=
        match date_text with
        | [d0, d1] =>
            if d0.length ≤ 2 && d1.length = 4 && pyIsDigit d0 && pyIsDigit d1 &&
                pfx19or20 d1 then
              if inRange 1 31 d0 then
                replace_text_with_exceptions delims st t0
                  R.neg_lb_dates R.neg_la_dates id1 true
              else st
            else st
        | _ => st
      -- day + month, joined
      let st :=
        match date_text with
        | [d0, d1] =>
            if d0.length ≤ 2 && d1.length ≤ 2 && pyIsDigit d0 && pyIsDigit d1 then
              if inRange 1 31 d0 && inRange 1 12 d1 then
                replace_text_with_exceptions delims st t0
                  R.neg_lb_dates R.neg_la_dates id1 true
              else st
            else st
        | _ => st
      -- bare 4-digit year
      let st :=
        if t0.length = 4 && pyIsDigit t0 && pfx19or20 t0 then
          replace_text st t0 id1
        else st
      -- bare month name
      if isMonthTok R t0 then
        let st :=
          if R.months_abbreviated.contains (lowStr t0) then
            replace_text_end_dot st (t0 ++ ['.']) id1
          else st
        replace_text st t0 id1
      else st
  | _ => st

/-- Anonymizer.replace_titles. -/
def replace_titles (R : Resources) (st : SubState) (tokens : List Str) : SubState :=
  let full_string := joinSep [' '] tokens
  let id1 := "<TITELS_VOOR_ACHTER_$>".data
  let id2 := "<TITELS_VOOR_$>".data
  let id3 := "<TITELS_ACHTER_$>".data
  let titles_before := R.titles_before_full ++ R.titles_before_abbr
  let titles_after := R.titles_after_full ++ R.titles_after_abbr
  let titles_full := R.titles_before_full ++ R.titles_after_full
  let lf := lowStr full_string
  let st :=
    if tokens.length = 3 || tokens.length = 2 then
      let st :=
        if titles_before.contains lf && titles_after.contains lf then
          let st :=
            if !titles_full.contains lf then
              let st := replace_text_end_dot st (joinSep ". ".data tokens ++ ['.']) id1
              replace_text_end_dot st (joinSep ['.'] tokens ++ ['.']) id1
            else st
          replace_text st (joinSep [' '] tokens) id1
        else st
      let st :=
        if titles_before.contains lf then
          let st :=
            if !titles_full.contains lf then
              let st := replace_text_end_dot st (joinSep ". ".data tokens ++ ['.']) id2
              replace_text_end_dot st (joinSep ['.'] tokens ++ ['.']) id2
            else st
          replace_text st (joinSep [' '] tokens) id2
        else st
      if titles_after.contains lf then
        let st :=
          if !titles_full.contains lf then
            let st := replace_text_end_dot st (joinSep ". ".data tokens ++ ['.']) id3
            replace_text_end_dot st (joinSep ['.'] tokens ++ ['.']) id3
          else st
        replace_text st (joinSep [' '] tokens) id3
      else st
    else st
  match tokens with
  | [t0] =>
      let l0 := lowStr t0
      let st :=
        if titles_before.contains l0 && titles_after.contains l0 then
          let st :=
            if !titles_full.contains l0 then
              replace_text_end_dot st (t0 ++ ['.']) id1
            else st
          let st := replace_text_no_escape st ('(' :: (t0 ++ [')'])) id3
          replace_text st t0 id1
        else st
      let st :=
        if titles_before.contains l0 then
          let st :=
            if !titles_full.contains l0 then
              replace_text_end_dot st (t0 ++ ['.']) id2
            else st
          replace_text st t0 id2
        else st
      if titles_after.contains l0 then
        let st :=
          if !titles_full.contains l0 then
            replace_text_end_dot st (t0 ++ ['.']) id3
          else st
        let st := replace_text_no_escape st ('(' :: (t0 ++ [')'])) id3
        replace_text st t0 id3
      else st
  | _ => st

/-- Anonymizer.replace_phonenumbers. -/
def replace_phonenumbers (R : Resources) (st : SubState) (tokens : List Str) :
    SubState :=
  let id1 := "<TELEFOONNUMMER_$>".data
  match tokens with
  | [t0, t1, t2] =>
      if t2.length = 4 && pyIsDigit t2 && t1 = ['*'] &&
          R.cues_phone_before.contains (lowStr t0) then
        replace_text st (joinSep [' '] tokens) id1
      else st
  | [t0, t1] =>
      let st :=
        if t1.length = 5 && pyIsDigit (t1.drop 1) && t1.take 1 = ['*'] &&
            R.cues_phone_before.contains (lowStr t0) then
          replace_text st (joinSep [' '] tokens) id1
        else st
      if t1.length = 4 && pyIsDigit t1 &&
          R.cues_phone_before.contains (lowStr t0) then
        replace_text st (joinSep [' '] tokens) id1
      else st
  | [t0] =>
      if t0.length = 5 && pyIsDigit t0 then replace_text st t0 id1 else st
  | _ => st

/-- Anonymizer.replace_time. -/
def replace_time (R : Resources) (st : SubState) (tokens : List Str) : SubState :=
  let id1 := "<TIJD_$>".data
  let delims := (R.recist_begin, R.recist_end)
  match tokens with
  | [t0, t1, t2] =>
      if t0.length ≤ 2 && t1.length = 2 && t2.length = 2 && pyIsDigit t0 &&
          pyIsDigit t1 && pyIsDigit t2 then
        if inRange 0 23 t0 && inRange 0 59 t1 && inRange 0 59 t2 then
          let st := replace_text st (joinSep [':'] tokens) id1
          let st := replace_text st (joinSep ['.'] tokens) id1
          replace_text_with_exceptions delims st (joinSep [' '] tokens)
            R.neg_lb_times R.neg_la_times id1 true
        else st
      else st
  | [t0, t1] =>
      let st :=
        if t0.length ≤ 2 && t1.length = 2 && pyIsDigit t0 && pyIsDigit t1 then
          if inRange 0 23 t0 && inRange 0 59 t1 then
            let st := replace_text st (joinSep [':'] tokens ++ " uur".data) id1
            let st := replace_text st (joinSep [':'] tokens) id1
            let st := replace_text st (joinSep ['.'] tokens ++ " uur".data) id1
            let st := replace_text_with_exceptions delims st (joinSep ['.'] tokens)
              R.neg_lb_times R.neg_la_times id1 true
            replace_text st (joinSep [' '] tokens ++ " uur".data) id1
          else st
        else st
      let st :=
        if t0.length ≤ 2 && t1.length = 3 && pyIsDigit t0 &&
            pyIsDigit (t1.take (t1.length - 1)) && t1.drop (t1.length - 1) = ['u'] then
          if inRange 0 23 t0 && inRange 0 59 (t1.take (t1.length - 1)) then
            let st := replace_text st (joinSep [':'] tokens) id1
            replace_text st (joinSep ['.'] tokens) id1
          else st
        else st
      if t0.length = 4 && pyIsDigit t0 && lowStr t1 = "uur".data then
        if inRange 1 23 (t0.take 2) && inRange 0 59 (t0.drop 2) then
          replace_text st (joinSep [' '] tokens) id1
        else st
      else
        if t0.length ≤ 2 && pyIsDigit t0 && lowStr t1 = "uur".data then
          if inRange 1 23 t0 then replace_text st (joinSep [' '] tokens) id1 else st
        else st
  | [t0] =>
      match splitKeepChar 'u' t0 with
      | [n0, _, n2] =>
          if pyIsDigit n0 && pyIsDigit n2 && n2.length = 2 && n0.length ≤ 2 then
            if inRange 0 23 n0 && inRange 0 59 n2 then replace_text st t0 id1 else st
          else st
      | _ => st
  | _ => st

/-- Anonymizer.replace_cues. -/
def replace_cues (R : Resources) (st : SubState) (tokens : List Str) : SubState :=
  let full_string := joinSep [' '] tokens
  let id1 := "<PERSOON_HINT_VOOR_$>".data
  let id2 := "<PERSOON_HINT_ACHTER_$>".data
  if tokens.length > 1 then
    let st :=
      if R.cues_person_before.contains (lowStr full_string) then
        replace_text st (joinSep [' '] tokens) id1
      else st
    if R.cues_person_after.contains (lowStr full_string) then
      replace_text st (joinSep [' '] tokens) id2
    else st
  else
    match tokens with
    | [t0] =>
        let st :=
          if R.cues_person_before.contains (lowStr full_string) then
            replace_text st t0 id1
          else st
        if R.cues_person_after.contains (lowStr full_string) then
          replace_text st t0 id2
        else st
    | _ => st

/-- Anonymizer.replace_patientnumber (called on 1-grams). -/
def replace_patientnumber (st : SubState) (tokens : List Str) : SubState :=
  let id1 := "<PATIENTNUMMER_$>".data
  match tokens with
  | t0 :: _ =>
      if t0.length = 7 && pyIsDigit t0 then replace_text st t0 id1 else st
  | _ => st

/-- Anonymizer.replace_znumber. -/
def replace_znumber (st : SubState) (tokens : List Str) : SubState :=
  let id1 := "<ZNUMMER_$>".data
  match tokens with
  | t0 :: _ =>
      if t0.length = 7 && lowStr (t0.take 1) = ['z'] && pyIsDigit (t0.drop 1) then
        replace_text st t0 id1
      else st
  | _ => st

/-- Anonymizer.replace_firstnames. -/
def replace_firstnames (R : Resources) (st : SubState) (tokens : List Str) :
    SubState :=
  let id1 := "<VOORNAAM_$>".data
  match tokens with
  | t0 :: _ =>
      if R.first_names.contains (lowStr t0) && headUpper t0 &&
          !R.whitelist.contains (lowStr t0) && !R.days.contains (lowStr t0) &&
          !R.months.contains (lowStr t0) &&
          !R.months_abbreviated.contains (lowStr t0) then
        let st := replace_text_no_escape st ('(' :: (t0 ++ [')'])) id1
        replace_text st t0 id1
      else st
  | _ => st

/-- Anonymizer.replace_reportid. -/
def replace_reportid (st : SubState) (tokens : List Str) : SubState :=
  let id1 := "<RAPPORT_ID_$>".data
  let full_string := joinSep [' '] tokens
  match splitOnPred (fun c => c = '-' || isWsChar c) full_string with
  | [t0, t1, t2] =>
      if t0 = "T".data && pyIsDigit t1 && t1.length = 2 && pyIsDigit t2 &&
          t2.length = 5 then
        replace_text st full_string id1
      else st
  | _ => st

/-- Anonymizer.replace_cities. -/
def replace_cities (R : Resources) (st : SubState) (tokens : List Str) : SubState :=
  let id1 := "<PLAATS_$>".data
  match tokens with
  | t0 :: rest =>
      let city_name := joinSep [' '] rest
      if R.dutch_cities.contains (lowStr city_name) && rest.any headUpper &&
          R.cues_location_before.contains t0 then
        replace_text st city_name id1
      else st
  | _ => st

/-!
## Institution-specific preprocessors

Both preprocessors pass raw report text to re.sub as a PATTERN without
escaping, so text containing regex metacharacters can raise re.error.  The
model is conservative: a pattern containing any regex metacharacter is
reported as a regex error (Python compiles some of those, e.g. a bare dot;
no input used below lies in that gap, and the error instances used below,
an unbalanced parenthesis, are genuine re.error raisers).
-/

inductive PyErr where
  | regexErr : PyErr
  | keyErr : PyErr
deriving Repr, DecidableEq

def notNL : Char → Bool := fun c => !(c = '\n')

def regexMeta : Str := ['.', '^', '$', '*', '+', '?', '{', '}', '[', ']', '\\', '|', '(', ')']

/-- Compile report text that the source passes to re.sub as a pattern:
a dot matches any character but a newline (as in Python), any other
metacharacter is reported as an error (conservative; an unbalanced
parenthesis, the error case exercised below, is a genuine re.error). -/
def pyDotPatRx (s : Str) : Option Rx :=
  if s.any (fun c => regexMeta.contains c && !(c = '.')) then none
  else some (Rx.cat (s.map (fun c => if c = '.' then Rx.cls notNL else Rx.str [c])))

/-- Anonymizer.remove_report_status: scan 4-line windows of the original
line list for [blank, blank, capitalized line, line containing
"verslagstatus"]; on a hit, re.sub replaces every occurrence of the joined
window in the current text with a fresh GEAUTORISEERD label. -/
def remove_report_status (st : SubState) : Except PyErr SubState :=
  let lines0 := splitOnChar '\n' st.text
  let lines := lines0 ++ List.replicate (4 - lines0.length) ([] : Str)
  (List.range (lines.length - 3)).foldlM (fun s i =>
    match (lines.drop i).take 4 with
    | [l0, l1, l2, l3] =>
        if pyStrip l0 = [] && pyStrip l1 = [] &&
            containsSub "verslagstatus".data (lowStr (pyStrip l3)) &&
            (pyStrip l2).length > 0 && headUpper (pyStrip l2) then
          let tid := ("<GEAUTORISEERD_".data ++ natToStr s.counter ++ [('>' : Char)])
          let pat := joinSep ['\n'] [l0, l1, l2, l3]
          match pyDotPatRx pat with
          | some rx =>
              Except.ok { text := pySubAll rx tid s.text
                          dict := dictSet s.dict tid pat
                          counter := s.counter + 1 }
          | none => Except.error PyErr.regexErr
        else Except.ok s
    | _ => Except.ok s) st

/-- The pattern "(?<=door )[^0-9]+" of remove_name_addendum. -/
def addendumRx : Rx :=
  Rx.cat [Rx.behind (litW "door ".data), Rx.plus (fun c => !isDigitChar c)]

/-- Anonymizer.remove_name_addendum. -/
def remove_name_addendum (st : SubState) : Except PyErr SubState := do
  let r ← (splitOnChar '\n' st.text).foldlM
    (fun (acc : List Str × List (Str × Str) × Nat) line => do
      if containsSub "ADDENDUM: >>".data line then
        match pyFindAll addendumRx line with
        | m0 :: _ =>
            let tid := ("<PERSOON_".data ++ natToStr acc.2.2 ++ [('>' : Char)])
            match pyDotPatRx m0 with
            | some rx =>
                pure (acc.1 ++ [pySubAll rx tid line],
                  dictSet acc.2.1 tid m0, acc.2.2 + 1)
            | none => throw PyErr.regexErr
        | [] => pure (acc.1 ++ [line], acc.2)
      else pure (acc.1 ++ [line], acc.2))
    ([], st.dict, st.counter)
  pure { text := joinSep ['\n'] r.1, dict := r.2.1, counter := r.2.2 }

/-!
## Label-chaining merger
-/

/-- The label pattern of one intermediate kind, e.g. <ACHTERNAAM_[0-9]+>. -/
def labRx (kind : Str) : Rx :=
  Rx.cat [Rx.str ('<' :: (kind ++ ['_'])), Rx.plus isDigitChar, Rx.str ['>']]

/-- Item <KIND_[0-9]+>, of the comma variants. -/
def labC (kind : Str) : Rx := Rx.seq (labRx kind) (Rx.str [','])

/-- Join pattern items the way " ?".join does. -/
def joinRxWith (sep : Rx) : List Rx → Rx
  | [] => Rx.eps
  | [r] => r
  | r :: rest => Rx.seq r (Rx.seq sep (joinRxWith sep rest))

def jSp (rs : List Rx) : Rx := joinRxWith (Rx.opt (Rx.cls (chP ' '))) rs

def kTV : Str := "TITELS_VOOR".data
def kTA : Str := "TITELS_ACHTER".data
def kTVA : Str := "TITELS_VOOR_ACHTER".data
def kINI : Str := "INITIALEN".data
def kVN : Str := "VOORNAAM".data
def kHV : Str := "PERSOON_HINT_VOOR".data
def kHA : Str := "PERSOON_HINT_ACHTER".data
def kACH : Str := "ACHTERNAAM".data
def kWACH : Str := "W_ACHTERNAAM".data
def kTMP : Str := "TEMP_PERSOON".data

def persoonT : Str := "<PERSOON_$>".data
def tempT : Str := "<TEMP_PERSOON_$>".data

/-- Fixed-width lookbehind window
<PERSOON_HINT_VOOR_[0-9]{5}>mid<k2_[0-9]{5}> of the misspelled-name
sub-pass (mid is " " or ": "). -/
def hintWindow (mid : Str) (k2 : Str) : List (Char → Bool) :=
  litW ('<' :: (kHV ++ ['_'])) ++ List.replicate 5 isDigitChar ++
    litW ('>' :: mid) ++ litW ('<' :: (k2 ++ ['_'])) ++
    List.replicate 5 isDigitChar ++ litW "> ".data

/-- (?<=...)[A-Z]{1}[a-z]+  — a capitalized word right after hint + title. -/
def misspellRx (mid : Str) (k2 : Str) : Rx :=
  Rx.cat [Rx.behind (hintWindow mid k2), Rx.cls isUpperChar, Rx.plus isLowerChar]

/-- <PERSOON_HINT_VOOR_[0-9]+>.{,2}(<k2_[0-9]+>.{,2}<TEMP_PERSOON_[0-9]+>). -/
def hintMergeRx (k2 : Str) : Rx :=
  joinRxWith (Rx.upTo 2 notNL)
    [labRx kHV, Rx.grp (joinRxWith (Rx.upTo 2 notNL) [labRx k2, labRx kTMP])]

/-- The ordered pattern/template list of the body of the t_id loop of
replace_intermediate_labels, in source order (t is ACHTERNAAM on the first
iteration and W_ACHTERNAAM on the second). -/
def mergeSteps (t : Str) : List (Rx × Str) :=
  [ -- six-gram patterns
   (jSp [labRx kTV, labRx kTV, labRx kTV, labRx kINI, labRx t, labRx kTA], persoonT),
   (jSp [labRx kTV, labRx kTV, labRx kTV, labRx kINI, labC t, labRx kTA], persoonT),
   (jSp [labRx kTV, labRx kTV, labRx kTV, labRx kINI, labRx t, labRx kTVA], persoonT),
   (jSp [labRx kTV, labRx kTV, labRx kTV, labRx kINI, labC t, labRx kTVA], persoonT),
   -- five-gram patterns
   (jSp [labRx kTV, labRx kTV, labRx kTV, labRx kINI, labRx t], persoonT),
   (jSp [labRx kTV, labRx kTV, labRx kTV, labRx kTV, labRx t], persoonT),
   (jSp [labRx kTV, labRx kTV, labRx kINI, labRx t, labRx kTA], persoonT),
   (jSp [labRx kTV, labRx kTV, labRx kINI, labC t, labRx kTA], persoonT),
   (jSp [labRx kTV, labRx kTV, labRx kINI, labRx t, labRx kTVA], persoonT),
   (jSp [labRx kTV, labRx kTV, labRx kINI, labC t, labRx kTVA], persoonT),
   (jSp [labRx kTV, labRx kTV, labRx kTV, labRx t, labRx kINI], persoonT),
   (jSp [labRx kTV, labRx kTV, labRx kTV, labC t, labRx kINI], persoonT),
   -- four-gram patterns
   (jSp [labRx kTV, labRx kTV, labRx kINI, labRx t], persoonT),
   (jSp [labRx kTV, labRx kTV, labRx kTV, labRx t], persoonT),
   (jSp [labRx kTV, labRx kTV, labRx t, labRx kINI], persoonT),
   (jSp [labRx kTV, labRx kTV, labC t, labRx kINI], persoonT),
   (jSp [labRx kTV, labRx kTV, labRx t, labRx kTVA], persoonT),
   (jSp [labRx kTV, labRx kTV, labC t, labRx kTVA], persoonT),
   (jSp [labRx kTV, labRx kTV, labRx t, labRx kTA], persoonT),
   (jSp [labRx kTV, labRx kTV, labC t, labRx kTA], persoonT),
   (jSp [labRx kTV, labRx t, labRx kINI, labRx kVN], persoonT),
   (jSp [labRx kTV, labC t, labRx kINI, labRx kVN], persoonT),
   (jSp [labRx kTV, labRx t, labRx kINI, labRx kTA], persoonT),
   (jSp [labRx kTVA, labRx t, labRx kINI, labRx kTA], persoonT),
   (jSp [labRx kTVA, labRx t, labRx kINI, labRx kTVA], persoonT),
   (jSp [labRx kTV, labRx t, labRx kINI, labRx kTVA], persoonT),
   (jSp [labRx kTV, labC t, labRx kINI, labRx kTA], persoonT),
   (jSp [labRx kTVA, labC t, labRx kINI, labRx kTA], persoonT),
   (jSp [labRx kTVA, labC t, labRx kINI, labRx kTVA], persoonT),
   (jSp [labRx kTV, labC t, labRx kINI, labRx kTVA], persoonT),
   -- three-gram patterns
   (jSp [labRx kTV, labRx kINI, labRx t], persoonT),
   (jSp [labRx kTV, labC kINI, labRx t], persoonT),
   (jSp [labRx kTV, labRx t, labRx t], persoonT),
   (jSp [labRx kTVA, labRx kINI, labRx t], persoonT),
   (jSp [labRx kTVA, labC kINI, labRx t], persoonT),
   (jSp [labRx kTVA, labRx t, labRx t], persoonT),
   (jSp [labRx kTV, labRx kTV, labRx t], persoonT),
   (jSp [labRx kTV, labRx t, labRx kINI], persoonT),
   (jSp [labRx kTV, labC t, labRx kINI], persoonT),
   (jSp [labRx kINI, labRx t, labRx kTA], persoonT),
   (jSp [labRx kINI, labC t, labRx kTA], persoonT),
   (jSp [labRx kTV, labRx t, labRx kTA], persoonT),
   (jSp [labRx kTV, labC t, labRx kTA], persoonT),
   (jSp [labRx kVN, labRx t, labRx kTA], persoonT),
   (jSp [labRx t, labRx t, labRx kTA], persoonT),
   (jSp [labRx kVN, labC t, labRx kTA], persoonT),
   (jSp [labRx t, labC t, labRx kTA], persoonT),
   (jSp [labRx kTA, labRx kVN, labRx t], persoonT),
   (jSp [labRx kTA, labRx t, labRx t], persoonT),
   (jSp [labRx kTVA, labRx t, labRx kINI], persoonT),
   (jSp [labRx kTVA, labC t, labRx kINI], persoonT),
   (jSp [labRx kINI, labRx t, labRx kTVA], persoonT),
   (jSp [labRx kINI, labC t, labRx kTVA], persoonT),
   (jSp [labRx kTV, labRx t, labRx kTVA], persoonT),
   (jSp [labRx kTVA, labC t, labRx kTA], persoonT),
   (jSp [labRx kTV, labC t, labRx kTVA], persoonT),
   (jSp [labRx kTVA, labC t, labRx kTVA], persoonT),
   (jSp [labRx kTVA, labC t, labRx kTVA], persoonT),
   (jSp [labRx kVN, labRx t, labRx kTVA], persoonT),
   (jSp [labRx t, labRx t, labRx kTVA], persoonT),
   (jSp [labRx kVN, labC t, labRx kTVA], persoonT),
   (jSp [labRx t, labC t, labRx kTVA], persoonT),
   (jSp [labRx kTVA, labRx kVN, labRx t], persoonT),
   (jSp [labRx kTVA, labRx t, labRx t], persoonT),
   (jSp [labRx t, labRx t, labRx kTVA], persoonT),
   (jSp [labRx t, labC t, labRx kTVA], persoonT),
   (jSp [labRx kTVA, labRx t, labRx t], persoonT),
   (jSp [labRx kINI, labRx kVN, labRx t], persoonT),
   (jSp [labRx kINI, labRx kACH, labRx t], persoonT),
   (jSp [labRx kTV, labRx t, labRx kWACH], persoonT),
   (jSp [labRx kTVA, labRx t, labRx kWACH], persoonT),
   (jSp [labRx t, labRx kWACH, labRx kTVA], persoonT),
   (jSp [labRx t, labC kWACH, labRx kTVA], persoonT),
   -- misspelled-name sub-pass
   (misspellRx [' '] kTVA, tempT),
   (misspellRx ": ".data kTVA, tempT),
   (hintMergeRx kTVA, persoonT),
   (misspellRx [' '] kTV, tempT),
   (misspellRx ": ".data kTV, tempT),
   (hintMergeRx kTV, persoonT),
   -- two-gram patterns
   (jSp [labRx kINI, labRx kACH], persoonT),
   (jSp [labC kINI, labRx kACH], persoonT),
   (jSp [labRx kTV, labRx t], persoonT),
   (jSp [labC kTV, labRx t], persoonT),
   (jSp [labRx t, labRx kTA], persoonT),
   (jSp [labC t, labRx kTA], persoonT),
   (jSp [labRx kTVA, labRx t], persoonT),
   (jSp [labC kTVA, labRx t], persoonT),
   (jSp [labRx kACH, labRx kTVA], persoonT),
   (jSp [labRx kACH, labRx kTA], persoonT),
   (jSp [labC t, labRx kTVA], persoonT),
   (jSp [labRx kACH, labRx kINI], persoonT),
   (jSp [labC kACH, labRx kINI], persoonT),
   (jSp [labRx kACH, labRx kACH], persoonT),
   (jSp [Rx.seq (labRx kACH) (Rx.cls notNL), labRx kACH], persoonT),
   (jSp [labC kACH, labRx kACH], persoonT),
   (jSp [labRx kVN, labRx kACH], persoonT),
   (jSp [labC kACH, labRx kVN], persoonT),
   (jSp [labRx kHV, Rx.grp (labRx t)], persoonT),
   (joinRxWith (Rx.opt (Rx.cls notNL)) [Rx.grp (labRx kACH), labRx kHA], persoonT),
   (joinRxWith (Rx.opt (Rx.cls notNL))
     [Rx.grp (labRx kACH), Rx.seq (Rx.cls notNL) (labRx kHA)], persoonT)]

/-- Anonymizer.replace_intermediate_labels. -/
def replace_intermediate_labels (st : SubState) : SubState :=
  [kACH, kWACH].foldl (fun st t =>
    (mergeSteps t).foldl (fun st p => replace_text_persons st p.1 p.2) st) st

/-!
## Reversion and postprocessing
-/

/-- Anonymizer.revert_intermediate_labels: the per-kind match lists are all
computed on the incoming text, then every leftover intermediate label is
replaced (first occurrence) by its recorded original.  A missing dictionary
entry is a KeyError; a backslash in the recorded original would make Python
re.sub treat the replacement as an escape sequence, modelled as an error. -/
def revert_intermediate_labels (st : SubState) : Except PyErr SubState :=
  let kinds := [kINI, kTV, kTA, kTVA, kACH, kHV, kHA, kVN, kWACH]
  let ms := (kinds.map (fun k => pyFindAll (labRx k) st.text)).flatten
  ms.foldlM (fun s m =>
    match dictGet s.dict m with
    | none => Except.error PyErr.keyErr
    | some orig =>
        if orig.contains '\\' then Except.error PyErr.regexErr
        else Except.ok { s with text := pySubFirst (Rx.str m) orig s.text }) st

/-- Annotation record of one report: the pristine (cleaned) text and the
recorded (start, end, tag) spans. -/
structure Ann where
  text : Str
  labels : List (Int × Int × Str)
deriving Repr

/-- The postprocessing label pattern "<[A-Z_]+[0-9]+>". -/
def labelAnyRx : Rx :=
  Rx.cat [Rx.str ['<'], Rx.plus (fun c => isUpperChar c || c = '_'),
    Rx.plus isDigitChar, Rx.str ['>']]

/-- "_".join(match.split("_")[:-1]) + ">". -/
def stripCounter (m : Str) : Str :=
  joinSep ['_'] (splitOnChar '_' m).dropLast ++ ['>']

/-- Anonymizer.postprocess_report: recover span offsets by replaying label
removals left to right over a copy, record one span per label (person labels
absorb their revealed sub-labels), rewrite labels to canonical tags, clear
the dictionary.  Returns (final text, annotation record). -/
def postprocess_report (orig : Str) (st : SubState) : Except PyErr (Str × Ann) := do
  let mlist := pyFindAll labelAnyRx st.text
  let r ← mlist.foldlM
    (fun (acc : Str × List (Int × Int × Str)) m => do
      let rc := acc.1
      if containsSub "PERSOON".data m then
        let span_start := pyFind rc m
        match dictGet st.dict m with
        | none => throw PyErr.keyErr
        | some orig0 =>
            let span_end := span_start + (orig0.length : Int)
            let rc := pyReplace rc m orig0
            let subs := (pyFindAll labelAnyRx rc).filter (fun i => !mlist.contains i)
            if !subs.isEmpty then
              let r2 ← subs.foldlM
                (fun (a2 : Str × Int) sub => do
                  match dictGet st.dict sub with
                  | none => throw PyErr.keyErr
                  | some so =>
                      pure (pyReplace a2.1 sub so, pyFind a2.1 sub + (so.length : Int)))
                (rc, span_end)
              pure (r2.1, acc.2 ++ [(span_start, r2.2, "<PERSOON>".data)])
            else
              pure (rc, acc.2 ++ [(span_start, span_end, "<PERSOON>".data)])
      else
        let span_start := pyFind rc m
        match dictGet st.dict m with
        | none => throw PyErr.keyErr
        | some orig0 =>
            let span_end := span_start + (orig0.length : Int)
            pure (pyReplace rc m orig0,
              acc.2 ++ [(span_start, span_end, stripCounter m)]))
    (st.text, [])
  let final := (st.dict.map (fun e => e.1)).foldl
    (fun rep k => pySubAll (Rx.str k) (stripCounter k) rep) st.text
  pure (final, { text := orig, labels := r.2 })

/-!
## The engine and anonymize_report
-/

structure Engine where
  replace_dict : List (Str × Str)
  counter : Nat
  original_report : Str
  annots : List Ann
deriving Repr

/-- Engine state right after Anonymizer.__init__. -/
def initEngine : Engine :=
  { replace_dict := [], counter := 10000, original_report := [], annots := [] }

def allEntities : List Str :=
  ["person".data, "date".data, "time".data, "internal_phone_number".data,
   "patient_id".data, "z_number".data, "report_id".data, "location".data]

/-- Anonymizer.anonymize_report, with ents the entities_to_anonymize list. -/
def anonymize_report (R : Resources) (ents : List Str) (e : Engine)
    (report0 : Str) : Except PyErr (Str × Engine) := do
  let report := clean_report report0
  let g1 := gramsOfSize 1 report
  let g2 := gramsOfSize 2 report
  let g3 := gramsOfSize 3 report
  let g4 := gramsOfSize 4 report
  let g5 := gramsOfSize 5 report
  let orig := report
  let person := ents.contains "person".data
  let date := ents.contains "date".data
  let time := ents.contains "time".data
  let phone := ents.contains "internal_phone_number".data
  let patient := ents.contains "patient_id".data
  let znum := ents.contains "z_number".data
  let repid := ents.contains "report_id".data
  let location := ents.contains "location".data
  let st0 : SubState := { text := report, dict := e.replace_dict, counter := e.counter }
  let st ←
    (if person then remove_report_status st0 >>= remove_name_addendum
     else pure st0)
  let st := g5.foldl (fun st g =>
    let st := if person then replace_initials R (replace_family_names R st g) g else st
    if location then replace_cities R st g else st) st
  let st := g4.foldl (fun st g =>
    let st := if person then replace_family_names R st g else st
    let st := if date then replace_dates R st g else st
    let st := if person then replace_initials R st g else st
    if location then replace_cities R st g else st) st
  let st := g3.foldl (fun st g =>
    let st := if repid then replace_reportid st g else st
    let st := if person then replace_family_names R (replace_titles R st g) g else st
    let st := if phone then replace_phonenumbers R st g else st
    let st := if time then replace_time R st g else st
    let st := if date then replace_dates R st g else st
    let st := if person then replace_initials R st g else st
    if location then replace_cities R st g else st) st
  let st := g2.foldl (fun st g =>
    let st := if repid then replace_reportid st g else st
    let st :=
      if person then
        replace_family_names R (replace_cues R (replace_titles R st g) g) g
      else st
    let st := if time then replace_time R st g else st
    let st := if date then replace_dates R st g else st
    let st := if phone then replace_phonenumbers R st g else st
    let st := if person then replace_initials R st g else st
    if location then replace_cities R st g else st) st
  let st := g1.foldl (fun st g =>
    let st :=
      if person then
        replace_family_names R (replace_cues R (replace_titles R st g) g) g
      else st
    let st := if patient then replace_patientnumber st g else st
    let st := if znum then replace_znumber st g else st
    let st := if phone then replace_phonenumbers R st g else st
    let st := if date then replace_dates R st g else st
    let st := if time then replace_time R st g else st
    let st := if person then replace_initials R st g else st
    let st := if person then replace_firstnames R st g else st
    if location then replace_cities R st g else st) st
  let st := replace_intermediate_labels st
  let st ← revert_intermediate_labels st
  let (finalText, ann) ← postprocess_report orig st
  pure (finalText,
    { replace_dict := []
      counter := st.counter
      original_report := orig
      annots := e.annots ++ [ann] })

/-!
## Concrete lookup resources

The lookup tables are external data (out of scope of the core); the claims
are settled against this small concrete instantiation.
-/

def strL (l : List String) : List Str := l.map String.data

def rraRes : Resources :=
  { whitelist_full := strL ["mol"]
    whitelist_abbreviated := strL ["ca"]
    days := strL ["maandag", "dinsdag", "woensdag", "donderdag", "vrijdag",
      "zaterdag", "zondag"]
    days_abbreviated := strL ["ma", "di", "wo", "do", "vr", "za", "zo"]
    months := strL ["januari", "februari", "maart", "april", "mei", "juni",
      "juli", "augustus", "september", "oktober", "november", "december"]
    months_abbreviated := strL ["jan", "feb", "mrt", "apr", "jun", "jul",
      "aug", "sep", "okt", "nov", "dec"]
    family_names_raw := strL ["Hendrix", "Mol", "Jansen"]
    first_names_raw := strL ["Jan", "Ward"]
    dutch_cities_raw := strL ["Nijmegen"]
    titles_before_full := strL []
    titles_before_abbr := strL ["dr", "drs"]
    titles_after_full := strL ["internist"]
    titles_after_abbr := strL ["msc"]
    cues_person_before := strL ["dhr"]
    cues_person_after := strL ["arts"]
    cues_phone_before := strL ["sein"]
    cues_location_before := strL ["te"]
    neg_lb_dates := strL ["leeftijd"]
    neg_la_dates := strL ["cc"]
    neg_lb_times := strL ["gedurende"]
    neg_la_times := strL ["minuten"]
    recist_begin := "target".data
    recist_end := "nontarget".data }

/-- Anonymized text of a successful run (empty on error). -/
def resText (r : Except PyErr (Str × Engine)) : Str :=
  match r with
  | .ok (t, _) => t
  | .error _ => []

/-- Annotation records accumulated by a successful run. -/
def resAnns (r : Except PyErr (Str × Engine)) : List Ann :=
  match r with
  | .ok (_, e) => e.annots
  | .error _ => []

def resOk (r : Except PyErr (Str × Engine)) : Bool :=
  match r with
  | .ok _ => true
  | .error _ => false

def resEngine (r : Except PyErr (Str × Engine)) : Engine :=
  match r with
  | .ok (_, e) => e
  | .error _ => initEngine

/-!
## State invariants

keyNum reads the counter out of a label key; KeyInvD states that the
replacement-map keys carry strictly increasing counters, all below the
current counter value (so keys are pairwise distinct and the next stamped
key is fresh).  TameRel is the step relation every engine operation
satisfies: the counter never decreases, and the map only grows, keeping
KeyInvD.
-/

def keyNum (k : Str) : Nat := strToNat (k.filter isDigitChar)

def KeyInvD (d : List (Str × Str)) (c : Nat) : Prop :=
  List.Chain' (· < ·) (d.map (fun e => keyNum e.1)) ∧ ∀ e ∈ d, keyNum e.1 < c

def TameRel (st st' : SubState) : Prop :=
  st.counter ≤ st'.counter ∧
  (KeyInvD st.dict st.counter →
    KeyInvD st'.dict st'.counter ∧ ∃ tl, st'.dict = st.dict ++ tl)

/-- Label templates of the source: no digits and exactly one dollar sign,
so stamping them with the counter yields a key that reads back as the
counter. -/
def goodTmpl (tmpl : Str) : Bool :=
  decide (tmpl.filter isDigitChar = []) && decide (tmpl.count '$' = 1)

/-!
## Claims
-/

def c1Input : Str := "x14-01-2020".data

def c1Res : Except PyErr (Str × Engine) :=
  anonymize_report rraRes allEntities initEngine c1Input

def c3Input : Str := "Dr. J. Hendrix, internist".data

def c3Res : Except PyErr (Str × Engine) :=
  anonymize_report rraRes allEntities initEngine c3Input

def c9Input : Str := "x\n\n\nAb(\nverslagstatus".data

/-- Reconstruction by the annotation: replace text[start:end] by the span's
tag, processing the recorded spans right to left (spans with out-of-range
offsets cannot be applied and leave the text unchanged). -/
def spliceTag (t : Str) (s e : Int) (tag : Str) : Str :=
  if 0 ≤ s ∧ s ≤ e then t.take s.toNat ++ tag ++ t.drop e.toNat else t

def reconstruct (a : Ann) : Str :=
  a.labels.reverse.foldl (fun t l => spliceTag t l.1 l.2.1 l.2.2) a.text

def c2Input : Str := "a\n\n\nN\nverslagstatus x\n\n\nN\nverslagstatus x".data

def c2Res : Except PyErr (Str × Engine) :=
  anonymize_report rraRes allEntities initEngine c2Input

def c2Ann : Ann :=
  { text := c2Input
    labels := [(2, 21, "<GEAUTORISEERD>".data), (-1, 18, "<GEAUTORISEERD>".data)] }

def c10Input : Str := "b\n\n\nN\nverslagstatus y\n\n\nN\nverslagstatus y".data

def c10Res : Except PyErr (Str × Engine) :=
  anonymize_report rraRes allEntities initEngine c10Input

def c10Ann : Ann :=
  { text := c10Input
    labels := [(2, 21, "<GEAUTORISEERD>".data), (-1, 18, "<GEAUTORISEERD>".data)] }

/-- The working-text/replacement-map invariant of C6: every label-shaped
substring of the working text has exactly one entry in the map. -/
def LabelInv (st : SubState) : Prop :=
  ∀ m ∈ pyFindAll labelAnyRx st.text, (st.dict.filter (fun e => e.1 = m)).length = 1

def c6Input : Str := "zie <FOO_12345> marker".data

def c7Input : Str := "r\n\n\nNaam\nverslagstatus x".data

def c7St : SubState := { text := c7Input, dict := [], counter := 10000 }

def c4Input : Str := "Mol fietst".data

def c4Res : Except PyErr (Str × Engine) :=
  anonymize_report rraRes allEntities initEngine c4Input


/-!
## Invariant machinery: counter/key discipline of the substitution state
-/

set_option linter.unreachableTactic false
set_option linter.unusedTactic false

theorem natToStrAux_acc (fuel : Nat) :
    ∀ (n : Nat) (acc : Str), natToStrAux fuel n acc = natToStrAux fuel n [] ++ acc := by
  induction fuel with
  | zero => intro n acc; rfl
  | succ f ih =>
      intro n acc
      simp only [natToStrAux]
      split
      · rfl
      · rw [ih (n / 10) [Char.ofNat (n % 10 + 48)],
          ih (n / 10) (Char.ofNat (n % 10 + 48) :: acc)]
        simp

theorem digitChar_ofNat : ∀ m < 10, isDigitChar (Char.ofNat (m + 48)) = true := by
  decide

theorem digitChar_toNat : ∀ m < 10, (Char.ofNat (m + 48)).toNat = m + 48 := by
  decide

theorem natToStr_all_digits (n : Nat) : (natToStr n).all isDigitChar = true := by
  suffices h : ∀ fuel n, ((natToStrAux fuel n []).all isDigitChar) = true from h (n + 1) n
  intro fuel
  induction fuel with
  | zero => intro n; rfl
  | succ f ih =>
      intro n
      simp only [natToStrAux]
      split
      · simp [digitChar_ofNat (n % 10) (Nat.mod_lt _ (by norm_num))]
      · rw [natToStrAux_acc]
        simp only [List.all_append, ih (n / 10), Bool.true_and, List.all_cons,
          List.all_nil]
        simp [digitChar_ofNat (n % 10) (Nat.mod_lt _ (by norm_num))]

theorem strToNat_natToStr (n : Nat) : strToNat (natToStr n) = n := by
  suffices h : ∀ fuel n, n < fuel → strToNat (natToStrAux fuel n []) = n from
    h (n + 1) n (Nat.lt_succ_self n)
  intro fuel
  induction fuel with
  | zero => intro n h; omega
  | succ f ih =>
      intro n hn
      simp only [natToStrAux]
      split
      · next hdiv =>
          have h10 : n < 10 := by omega
          simp [strToNat, List.foldl, digitChar_toNat (n % 10) (Nat.mod_lt _ (by norm_num))]
          omega
      · next hdiv =>
          rw [natToStrAux_acc]
          have hlt : n / 10 < f := by
            have h1 : n / 10 < n := Nat.div_lt_self (by omega) (by norm_num)
            omega
          simp only [strToNat, List.foldl_append] at *
          rw [ih (n / 10) hlt]
          simp [List.foldl, digitChar_toNat (n % 10) (Nat.mod_lt _ (by norm_num))]
          omega

theorem stampFilter (d : Str) (hd : d.all isDigitChar = true) :
    ∀ (s : Str) (fuel : Nat), s.length ≤ fuel → s.filter isDigitChar = [] →
      (stampWithFuel d fuel s).filter isDigitChar =
        (List.replicate (s.count '$') d).flatten := by
  intro s
  induction s with
  | nil =>
      intro fuel _ _
      cases fuel <;> simp [stampWithFuel, List.count_nil]
  | cons c cs ih =>
      intro fuel hlen hfil
      match fuel with
      | 0 => simp at hlen
      | f + 1 =>
          have hc : isDigitChar c = false := by
            by_contra h
            simp only [Bool.not_eq_false] at h
            simp [List.filter, h] at hfil
          have hcs : cs.filter isDigitChar = [] := by
            simpa [List.filter, hc] using hfil
          have hlen' : cs.length ≤ f := by simpa using hlen
          simp only [stampWithFuel]
          by_cases hdol : c = '$'
          · subst hdol
            have hdfil : d.filter isDigitChar = d := List.filter_eq_self.mpr (by
              intro a ha
              exact (List.all_eq_true.mp hd) a ha)
            simp only [eq_self_iff_true, if_true, List.filter_append, hdfil]
            rw [ih f hlen' hcs]
            simp [List.count_cons, List.replicate_succ]
          · rw [if_neg hdol, if_neg (by simp [hc])]
            simp only [List.filter, hc]
            rw [ih f hlen' hcs]
            simp [List.count_cons, hdol]

theorem keyNum_stamp (tmpl : Str) (c : Nat) (h : goodTmpl tmpl = true) :
    keyNum (stamp tmpl c) = c := by
  have h1 : tmpl.filter isDigitChar = [] := by
    have := (Bool.and_eq_true _ _).mp h
    exact of_decide_eq_true this.1
  have h2 : tmpl.count '$' = 1 := by
    have := (Bool.and_eq_true _ _).mp h
    exact of_decide_eq_true this.2
  unfold keyNum stamp stampWith
  rw [stampFilter (natToStr c) (natToStr_all_digits c) tmpl tmpl.length
    (Nat.le_refl _) h1, h2]
  simp [strToNat_natToStr]

theorem keyInvD_mono {d : List (Str × Str)} {c c' : Nat} (h : KeyInvD d c)
    (hle : c ≤ c') : KeyInvD d c' := by
  refine ⟨h.1, fun e he => Nat.lt_of_lt_of_le (h.2 e he) hle⟩

theorem keyInvD_insert {d : List (Str × Str)} {c : Nat} (h : KeyInvD d c)
    (k v : Str) (hk : keyNum k = c) :
    KeyInvD (dictSet d k v) (c + 1) ∧ ∃ tl, dictSet d k v = d ++ tl := by
  have hany : d.any (fun e => e.1 = k) = false := by
    by_contra hx
    simp only [Bool.not_eq_false, List.any_eq_true] at hx
    obtain ⟨e, he, hek⟩ := hx
    have := h.2 e he
    rw [of_decide_eq_true hek, hk] at this
    omega
  have hset : dictSet d k v = d ++ [(k, v)] := by
    unfold dictSet
    rw [hany]
    simp
  refine ⟨⟨?_, ?_⟩, ⟨[(k, v)], hset⟩⟩
  · rw [hset]
    simp only [List.map_append, List.map_cons, List.map_nil]
    rw [List.chain'_append]
    refine ⟨h.1, List.chain'_singleton _, ?_⟩
    intro x hx y hy
    simp only [List.head?_cons, Option.mem_def, Option.some_inj] at hy
    subst hy
    have hxm : x ∈ d.map (fun e => keyNum e.1) := List.mem_of_mem_getLast? hx
    obtain ⟨e, he, hex⟩ := List.mem_map.mp hxm
    rw [← hex, hk]
    exact h.2 e he
  · rw [hset]
    intro e he
    rcases List.mem_append.mp he with h1 | h1
    · exact Nat.lt_succ_of_lt (h.2 e h1)
    · simp only [List.mem_singleton] at h1
      subst h1
      simp [hk]

theorem tameRel_refl (st : SubState) : TameRel st st :=
  ⟨Nat.le_refl _, fun h => ⟨h, [], by simp⟩⟩

theorem tameRel_trans {a b c : SubState} (h1 : TameRel a b) (h2 : TameRel b c) :
    TameRel a c := by
  refine ⟨Nat.le_trans h1.1 h2.1, fun hk => ?_⟩
  obtain ⟨hk1, tl1, htl1⟩ := h1.2 hk
  obtain ⟨hk2, tl2, htl2⟩ := h2.2 hk1
  exact ⟨hk2, tl1 ++ tl2, by rw [htl2, htl1, List.append_assoc]⟩

theorem tameRel_applyMatches (mkRx : Str → Rx) (tmpl : Str)
    (h : goodTmpl tmpl = true) :
    ∀ (ms : List Str) (st : SubState), TameRel st (applyMatches mkRx tmpl ms st) := by
  intro ms
  induction ms with
  | nil => intro st; exact tameRel_refl st
  | cons m ms ih =>
      intro st
      have hstep : TameRel st
          { text := pySubFirst (mkRx m) (stamp tmpl st.counter) st.text
            dict := dictSet st.dict (stamp tmpl st.counter) m
            counter := st.counter + 1 } := by
        refine ⟨Nat.le_succ _, fun hk => ?_⟩
        exact keyInvD_insert hk _ m (keyNum_stamp tmpl st.counter h)
      exact tameRel_trans hstep (ih _)

theorem counter_applyMatches (mkRx : Str → Rx) (tmpl : Str) :
    ∀ (ms : List Str) (st : SubState),
      (applyMatches mkRx tmpl ms st).counter = st.counter + ms.length := by
  intro ms
  induction ms with
  | nil => intro st; rfl
  | cons m ms ih =>
      intro st
      have := ih { text := pySubFirst (mkRx m) (stamp tmpl st.counter) st.text
                   dict := dictSet st.dict (stamp tmpl st.counter) m
                   counter := st.counter + 1 }
      simp only [applyMatches, List.foldl] at this ⊢
      rw [this]
      simp [List.length_cons]
      omega

theorem tameRel_foldl {α : Type} (f : SubState → α → SubState)
    (hf : ∀ s x, TameRel s (f s x)) :
    ∀ (l : List α) (st : SubState), TameRel st (List.foldl f st l) := by
  intro l
  induction l with
  | nil => intro st; exact tameRel_refl st
  | cons x xs ih => intro st; exact tameRel_trans (hf st x) (ih (f st x))

theorem tameRel_rt (st : SubState) (L tmpl : Str) (h : goodTmpl tmpl = true) :
    TameRel st (replace_text st L tmpl) :=
  tameRel_applyMatches replaceTextRx tmpl h _ st

theorem tameRel_rtne (st : SubState) (L tmpl : Str) (h : goodTmpl tmpl = true) :
    TameRel st (replace_text_no_escape st L tmpl) :=
  tameRel_applyMatches Rx.str tmpl h _ st

theorem tameRel_red (st : SubState) (L tmpl : Str) (h : goodTmpl tmpl = true) :
    TameRel st (replace_text_end_dot st L tmpl) :=
  tameRel_applyMatches endDotRx tmpl h _ st

theorem tameRel_raed (st : SubState) (L tmpl : Str) (h : goodTmpl tmpl = true) :
    TameRel st (replace_text_all_end_dot st L tmpl) :=
  tameRel_applyMatches endDotRx tmpl h _ st

theorem tameRel_rnh (wl : List Str) (st : SubState) (L tmpl : Str)
    (h : goodTmpl tmpl = true) :
    TameRel st (replace_text_no_hyphen wl st L tmpl) :=
  tameRel_applyMatches (noHyphenRx wl) tmpl h _ st

theorem tameRel_rp (st : SubState) (rx : Rx) (tmpl : Str)
    (h : goodTmpl tmpl = true) :
    TameRel st (replace_text_persons st rx tmpl) :=
  tameRel_applyMatches Rx.str tmpl h _ st

theorem tameRel_ite {c : Prop} [inst : Decidable c] {st a b : SubState}
    (ha : TameRel st a) (hb : TameRel st b) : TameRel st (if c then a else b) := by
  split
  · exact ha
  · exact hb

theorem tameRel_rwe (delims : Str × Str) (st : SubState) (input : Str)
    (lbs las : List Str) (tmpl : Str) (rec : Bool) (h : goodTmpl tmpl = true) :
    TameRel st (replace_text_with_exceptions delims st input lbs las tmpl rec) := by
  unfold replace_text_with_exceptions
  refine tameRel_foldl _ ?_ _ st
  intro s x
  refine tameRel_ite ?_ (tameRel_refl s)
  exact ⟨Nat.le_succ _, fun hk =>
    keyInvD_insert hk _ _ (keyNum_stamp tmpl s.counter h)⟩

theorem tameRel_cues (R : Resources) (tokens : List Str) (st : SubState) :
    TameRel st (replace_cues R st tokens) := by
  unfold replace_cues
  repeat'
    first
    | exact tameRel_refl _
    | exact tameRel_rt _ _ _ (by decide)
    | refine tameRel_trans ?_ (tameRel_rt _ _ _ (by decide))
    | split
    | dsimp only

theorem tameRel_patientnumber (tokens : List Str) (st : SubState) :
    TameRel st (replace_patientnumber st tokens) := by
  unfold replace_patientnumber
  repeat'
    first
    | exact tameRel_refl _
    | exact tameRel_rt _ _ _ (by decide)
    | refine tameRel_trans ?_ (tameRel_rt _ _ _ (by decide))
    | split
    | dsimp only

theorem tameRel_znumber (tokens : List Str) (st : SubState) :
    TameRel st (replace_znumber st tokens) := by
  unfold replace_znumber
  repeat'
    first
    | exact tameRel_refl _
    | exact tameRel_rt _ _ _ (by decide)
    | exact tameRel_rtne _ _ _ (by decide)
    | exact tameRel_red _ _ _ (by decide)
    | exact tameRel_raed _ _ _ (by decide)
    | exact tameRel_rnh _ _ _ _ (by decide)
    | exact tameRel_rwe _ _ _ _ _ _ _ (by decide)
    | exact tameRel_rp _ _ _ (by decide)
    | refine tameRel_trans ?_ (tameRel_rt _ _ _ (by decide))
    | refine tameRel_trans ?_ (tameRel_rtne _ _ _ (by decide))
    | refine tameRel_trans ?_ (tameRel_red _ _ _ (by decide))
    | refine tameRel_trans ?_ (tameRel_raed _ _ _ (by decide))
    | refine tameRel_trans ?_ (tameRel_rnh _ _ _ _ (by decide))
    | refine tameRel_trans ?_ (tameRel_rwe _ _ _ _ _ _ _ (by decide))
    | refine tameRel_trans ?_ (tameRel_rp _ _ _ (by decide))
    | refine tameRel_foldl _ ?_ _ _
    | intro s x
    | split
    | dsimp only

theorem tameRel_firstnames (R : Resources) (tokens : List Str) (st : SubState) :
    TameRel st (replace_firstnames R st tokens) := by
  unfold replace_firstnames
  repeat'
    first
    | exact tameRel_refl _
    | exact tameRel_rt _ _ _ (by decide)
    | exact tameRel_rtne _ _ _ (by decide)
    | exact tameRel_red _ _ _ (by decide)
    | exact tameRel_raed _ _ _ (by decide)
    | exact tameRel_rnh _ _ _ _ (by decide)
    | exact tameRel_rwe _ _ _ _ _ _ _ (by decide)
    | exact tameRel_rp _ _ _ (by decide)
    | refine tameRel_trans ?_ (tameRel_rt _ _ _ (by decide))
    | refine tameRel_trans ?_ (tameRel_rtne _ _ _ (by decide))
    | refine tameRel_trans ?_ (tameRel_red _ _ _ (by decide))
    | refine tameRel_trans ?_ (tameRel_raed _ _ _ (by decide))
    | refine tameRel_trans ?_ (tameRel_rnh _ _ _ _ (by decide))
    | refine tameRel_trans ?_ (tameRel_rwe _ _ _ _ _ _ _ (by decide))
    | refine tameRel_trans ?_ (tameRel_rp _ _ _ (by decide))
    | refine tameRel_foldl _ ?_ _ _
    | intro s x
    | split
    | dsimp only

theorem tameRel_reportid (tokens : List Str) (st : SubState) :
    TameRel st (replace_reportid st tokens) := by
  unfold replace_reportid
  repeat'
    first
    | exact tameRel_refl _
    | exact tameRel_rt _ _ _ (by decide)
    | exact tameRel_rtne _ _ _ (by decide)
    | exact tameRel_red _ _ _ (by decide)
    | exact tameRel_raed _ _ _ (by decide)
    | exact tameRel_rnh _ _ _ _ (by decide)
    | exact tameRel_rwe _ _ _ _ _ _ _ (by decide)
    | exact tameRel_rp _ _ _ (by decide)
    | refine tameRel_trans ?_ (tameRel_rt _ _ _ (by decide))
    | refine tameRel_trans ?_ (tameRel_rtne _ _ _ (by decide))
    | refine tameRel_trans ?_ (tameRel_red _ _ _ (by decide))
    | refine tameRel_trans ?_ (tameRel_raed _ _ _ (by decide))
    | refine tameRel_trans ?_ (tameRel_rnh _ _ _ _ (by decide))
    | refine tameRel_trans ?_ (tameRel_rwe _ _ _ _ _ _ _ (by decide))
    | refine tameRel_trans ?_ (tameRel_rp _ _ _ (by decide))
    | refine tameRel_foldl _ ?_ _ _
    | intro s x
    | split
    | dsimp only

theorem tameRel_cities (R : Resources) (tokens : List Str) (st : SubState) :
    TameRel st (replace_cities R st tokens) := by
  unfold replace_cities
  repeat'
    first
    | exact tameRel_refl _
    | exact tameRel_rt _ _ _ (by decide)
    | exact tameRel_rtne _ _ _ (by decide)
    | exact tameRel_red _ _ _ (by decide)
    | exact tameRel_raed _ _ _ (by decide)
    | exact tameRel_rnh _ _ _ _ (by decide)
    | exact tameRel_rwe _ _ _ _ _ _ _ (by decide)
    | exact tameRel_rp _ _ _ (by decide)
    | refine tameRel_trans ?_ (tameRel_rt _ _ _ (by decide))
    | refine tameRel_trans ?_ (tameRel_rtne _ _ _ (by decide))
    | refine tameRel_trans ?_ (tameRel_red _ _ _ (by decide))
    | refine tameRel_trans ?_ (tameRel_raed _ _ _ (by decide))
    | refine tameRel_trans ?_ (tameRel_rnh _ _ _ _ (by decide))
    | refine tameRel_trans ?_ (tameRel_rwe _ _ _ _ _ _ _ (by decide))
    | refine tameRel_trans ?_ (tameRel_rp _ _ _ (by decide))
    | refine tameRel_foldl _ ?_ _ _
    | intro s x
    | split
    | dsimp only

theorem tameRel_phonenumbers (R : Resources) (tokens : List Str) (st : SubState) :
    TameRel st (replace_phonenumbers R st tokens) := by
  unfold replace_phonenumbers
  repeat'
    first
    | exact tameRel_refl _
    | exact tameRel_rt _ _ _ (by decide)
    | exact tameRel_rtne _ _ _ (by decide)
    | exact tameRel_red _ _ _ (by decide)
    | exact tameRel_raed _ _ _ (by decide)
    | exact tameRel_rnh _ _ _ _ (by decide)
    | exact tameRel_rwe _ _ _ _ _ _ _ (by decide)
    | exact tameRel_rp _ _ _ (by decide)
    | refine tameRel_trans ?_ (tameRel_rt _ _ _ (by decide))
    | refine tameRel_trans ?_ (tameRel_rtne _ _ _ (by decide))
    | refine tameRel_trans ?_ (tameRel_red _ _ _ (by decide))
    | refine tameRel_trans ?_ (tameRel_raed _ _ _ (by decide))
    | refine tameRel_trans ?_ (tameRel_rnh _ _ _ _ (by decide))
    | refine tameRel_trans ?_ (tameRel_rwe _ _ _ _ _ _ _ (by decide))
    | refine tameRel_trans ?_ (tameRel_rp _ _ _ (by decide))
    | refine tameRel_foldl _ ?_ _ _
    | intro s x
    | split
    | dsimp only


theorem tameRel_initials (R : Resources) (tokens : List Str) (st : SubState) :
    TameRel st (replace_initials R st tokens) := by
  unfold replace_initials
  lift_lets
  intro i1 s1 s2 s3 s4
  have hg1 : goodTmpl i1 = true := by decide
  have hs1 : TameRel st s1 := by
    unfold_let s1
    split
    · lift_lets
      intro w1
      exact tameRel_ite (tameRel_trans (tameRel_rnh _ _ _ _ hg1) (tameRel_rnh _ _ _ _ hg1))
        (tameRel_refl st)
    · exact tameRel_refl st
  have hs2 : TameRel st s2 := tameRel_trans hs1 (tameRel_raed _ _ _ hg1)
  have hs3 : TameRel st s3 := tameRel_trans hs2 (tameRel_raed _ _ _ hg1)
  have hs4 : TameRel st s4 := tameRel_trans hs3 (tameRel_rt _ _ _ hg1)
  exact tameRel_ite
    (tameRel_ite (tameRel_trans hs4 (tameRel_rt _ _ _ hg1)) hs1) (tameRel_refl st)

theorem tameRel_titles (R : Resources) (tokens : List Str) (st : SubState) :
    TameRel st (replace_titles R st tokens) := by
  unfold replace_titles
  lift_lets
  intro fs i1 i2 i3 tb ta tf lf s1 s2 s3 s4 s5 s6 s7 s8 s9
  have hg1 : goodTmpl i1 = true := by decide
  have hg2 : goodTmpl i2 = true := by decide
  have hg3 : goodTmpl i3 = true := by decide
  have hs1 : TameRel st s1 := tameRel_red _ _ _ hg1
  have hs2 : TameRel st s2 :=
    tameRel_ite (tameRel_trans hs1 (tameRel_red _ _ _ hg1)) (tameRel_refl st)
  have hs3 : TameRel st s3 :=
    tameRel_ite (tameRel_trans hs2 (tameRel_rt _ _ _ hg1)) (tameRel_refl st)
  have hs4 : TameRel st s4 := tameRel_trans hs3 (tameRel_red _ _ _ hg2)
  have hs5 : TameRel st s5 :=
    tameRel_ite (tameRel_trans hs4 (tameRel_red _ _ _ hg2)) hs3
  have hs6 : TameRel st s6 :=
    tameRel_ite (tameRel_trans hs5 (tameRel_rt _ _ _ hg2)) hs3
  have hs7 : TameRel st s7 := tameRel_trans hs6 (tameRel_red _ _ _ hg3)
  have hs8 : TameRel st s8 :=
    tameRel_ite (tameRel_trans hs7 (tameRel_red _ _ _ hg3)) hs6
  have hs9 : TameRel st s9 :=
    tameRel_ite (tameRel_ite (tameRel_trans hs8 (tameRel_rt _ _ _ hg3)) hs6)
      (tameRel_refl st)
  split
  · lift_lets
    intro l0 b1 b2 b3 b4 b5 b6 b7
    have hb1 : TameRel st b1 :=
      tameRel_ite (tameRel_trans hs9 (tameRel_red _ _ _ hg1)) hs9
    have hb2 : TameRel st b2 := tameRel_trans hb1 (tameRel_rtne _ _ _ hg3)
    have hb3 : TameRel st b3 :=
      tameRel_ite (tameRel_trans hb2 (tameRel_rt _ _ _ hg1)) hs9
    have hb4 : TameRel st b4 :=
      tameRel_ite (tameRel_trans hb3 (tameRel_red _ _ _ hg2)) hb3
    have hb5 : TameRel st b5 :=
      tameRel_ite (tameRel_trans hb4 (tameRel_rt _ _ _ hg2)) hb3
    have hb6 : TameRel st b6 :=
      tameRel_ite (tameRel_trans hb5 (tameRel_red _ _ _ hg3)) hb5
    have hb7 : TameRel st b7 := tameRel_trans hb6 (tameRel_rtne _ _ _ hg3)
    exact tameRel_ite (tameRel_trans hb7 (tameRel_rt _ _ _ hg3)) hb5
  · exact hs9

theorem tameRel_time (R : Resources) (tokens : List Str) (st : SubState) :
    TameRel st (replace_time R st tokens) := by
  unfold replace_time
  lift_lets
  intro i1 dl s1 s2 s3 s4 s5 s6
  have hg1 : goodTmpl i1 = true := by decide
  have hs1 : TameRel st s1 := tameRel_rt _ _ _ hg1
  have hs2 : TameRel st s2 := tameRel_trans hs1 (tameRel_rt _ _ _ hg1)
  have hs3 : TameRel st s3 := tameRel_rt _ _ _ hg1
  have hs4 : TameRel st s4 := tameRel_trans hs3 (tameRel_rt _ _ _ hg1)
  have hs5 : TameRel st s5 := tameRel_trans hs4 (tameRel_rt _ _ _ hg1)
  have hs6 : TameRel st s6 := tameRel_trans hs5 (tameRel_rwe _ _ _ _ _ _ _ hg1)
  split
  · exact tameRel_ite
      (tameRel_ite (tameRel_trans hs2 (tameRel_rwe _ _ _ _ _ _ _ hg1)) (tameRel_refl st))
      (tameRel_refl st)
  · lift_lets
    intro c1 c2 c3
    have hc1 : TameRel st c1 :=
      tameRel_ite (tameRel_ite (tameRel_trans hs6 (tameRel_rt _ _ _ hg1)) (tameRel_refl st))
        (tameRel_refl st)
    have hc2 : TameRel st c2 := tameRel_trans hc1 (tameRel_rt _ _ _ hg1)
    have hc3 : TameRel st c3 :=
      tameRel_ite (tameRel_ite (tameRel_trans hc2 (tameRel_rt _ _ _ hg1)) hc1) hc1
    exact tameRel_ite
      (tameRel_ite (tameRel_trans hc3 (tameRel_rt _ _ _ hg1)) hc3)
      (tameRel_ite (tameRel_ite (tameRel_trans hc3 (tameRel_rt _ _ _ hg1)) hc3) hc3)
  · split
    · exact tameRel_ite (tameRel_ite (tameRel_rt _ _ _ hg1) (tameRel_refl st))
        (tameRel_refl st)
    · exact tameRel_refl st
  · exact tameRel_refl st

theorem tameRel_family_names (R : Resources) (tokens : List Str) (st : SubState) :
    TameRel st (replace_family_names R st tokens) := by
  unfold replace_family_names
  lift_lets
  intro fs i1 i2 ce fam wl s1 s2 s3 sw at1 ngf wc nfl
  have hg1 : goodTmpl i1 = true := by decide
  have hg2 : goodTmpl i2 = true := by decide
  have hs1 : TameRel st s1 := tameRel_rtne _ _ _ hg1
  have hs2 : TameRel st s2 := tameRel_rtne _ _ _ hg2
  have hs3 : TameRel st s3 := by
    unfold_let s3
    split
    · exact tameRel_ite
        (tameRel_ite (tameRel_trans hs1 (tameRel_rt _ _ _ hg1))
          (tameRel_trans hs2 (tameRel_rt _ _ _ hg2)))
        (tameRel_refl st)
    · exact tameRel_refl st
  refine tameRel_ite (tameRel_trans hs3 (tameRel_foldl _ ?_ _ _)) hs3
  intro s x
  lift_lets
  intro w4 w5 w6
  have hw4 : TameRel s w4 := tameRel_rtne _ _ _ hg1
  have hw5 : TameRel s w5 := by
    unfold_let w5
    split
    · exact tameRel_trans hw4 (tameRel_rtne _ _ _ hg1)
    · exact hw4
  have hw6 : TameRel s w6 := tameRel_rtne _ _ _ hg2
  exact tameRel_ite (tameRel_trans hw5 (tameRel_rt _ _ _ hg1))
    (tameRel_trans hw6 (tameRel_rt _ _ _ hg2))

theorem tameRel_dates (R : Resources) (tokens : List Str) (st : SubState) :
    TameRel st (replace_dates R st tokens) := by
  unfold replace_dates
  lift_lets
  intro i1 dl sp
  have hg1 : goodTmpl i1 = true := by decide
  split
  · lift_lets
    intro a1 a2 a3
    have ha1 : TameRel st a1 := tameRel_rt _ _ _ hg1
    have ha2 : TameRel st a2 := tameRel_trans ha1 (tameRel_rt _ _ _ hg1)
    have ha3 : TameRel st a3 := tameRel_trans ha2 (tameRel_rt _ _ _ hg1)
    exact tameRel_ite (tameRel_ite (tameRel_trans ha3 (tameRel_rt _ _ _ hg1)) (tameRel_refl st))
      (tameRel_refl st)
  · lift_lets
    intro s1 s2 s3 s4 s5 s6 s7 s8 s9 s10 s11 s12 s13 s14 s15
    have hs1 : TameRel st s1 := tameRel_rt _ _ _ hg1
    have hs2 : TameRel st s2 :=
      tameRel_ite (tameRel_ite (tameRel_trans hs1 (tameRel_rt _ _ _ hg1)) (tameRel_refl st))
        (tameRel_refl st)
    have hs3 : TameRel st s3 := tameRel_trans hs2 (tameRel_rt _ _ _ hg1)
    have hs4 : TameRel st s4 :=
      tameRel_ite (tameRel_ite (tameRel_trans hs3 (tameRel_rt _ _ _ hg1)) hs2) hs2
    have hs5 : TameRel st s5 := tameRel_trans hs4 (tameRel_red _ _ _ hg1)
    have hs6 : TameRel st s6 :=
      tameRel_ite (tameRel_trans hs5 (tameRel_red _ _ _ hg1)) hs4
    have hs7 : TameRel st s7 := tameRel_trans hs6 (tameRel_rt _ _ _ hg1)
    have hs8 : TameRel st s8 :=
      tameRel_ite (tameRel_ite (tameRel_trans hs7 (tameRel_rt _ _ _ hg1)) hs4) hs4
    have hs9 : TameRel st s9 := tameRel_trans hs8 (tameRel_red _ _ _ hg1)
    have hs10 : TameRel st s10 := tameRel_trans hs9 (tameRel_rt _ _ _ hg1)
    have hs11 : TameRel st s11 := tameRel_trans hs10 (tameRel_rt _ _ _ hg1)
    have hs12 : TameRel st s12 :=
      tameRel_ite
        (tameRel_ite (tameRel_trans hs11 (tameRel_rwe _ _ _ _ _ _ _ hg1)) hs8) hs8
    have hs13 : TameRel st s13 := tameRel_trans hs12 (tameRel_red _ _ _ hg1)
    have hs14 : TameRel st s14 := tameRel_trans hs13 (tameRel_rt _ _ _ hg1)
    have hs15 : TameRel st s15 := tameRel_trans hs14 (tameRel_rt _ _ _ hg1)
    exact tameRel_ite (tameRel_ite (tameRel_trans hs15 (tameRel_rt _ _ _ hg1)) hs12) hs12
  · lift_lets
    intro dt
    beta_reduce
    lift_lets
    intro e1 e2 e3 e4
    have he1 : TameRel st e1 := tameRel_rt _ _ _ hg1
    have he2 : TameRel st e2 :=
      tameRel_ite (tameRel_trans he1 (tameRel_rt _ _ _ hg1)) (tameRel_refl st)
    have he3 : TameRel st e3 :=
      tameRel_ite (tameRel_trans he2 (tameRel_red _ _ _ hg1)) he2
    have he4 : TameRel st e4 :=
      tameRel_ite (tameRel_ite (tameRel_trans he3 (tameRel_rt _ _ _ hg1)) he2) he2
    clear_value dt
    split
    · exact tameRel_ite
        (tameRel_ite (tameRel_trans he4 (tameRel_rwe _ _ _ _ _ _ _ hg1)) he4) he4
    · exact he4
  · lift_lets
    intro dt u1 u2 u3 u4 u5 u6 u7 u8 u9
    clear_value dt
    have hu1 : TameRel st u1 := by
      unfold_let u1
      split
      · exact tameRel_ite (tameRel_ite (tameRel_rt _ _ _ hg1) (tameRel_refl st))
          (tameRel_refl st)
      · exact tameRel_refl st
    have hu2 : TameRel st u2 := by
      unfold_let u2
      split
      · exact tameRel_ite (tameRel_ite (tameRel_trans hu1 (tameRel_rt _ _ _ hg1)) hu1) hu1
      · exact hu1
    have hu3 : TameRel st u3 := by
      unfold_let u3
      split
      · exact tameRel_ite (tameRel_ite (tameRel_trans hu2 (tameRel_rt _ _ _ hg1)) hu2) hu2
      · exact hu2
    have hu4 : TameRel st u4 := by
      unfold_let u4
      split
      · exact tameRel_ite (tameRel_ite (tameRel_trans hu3 (tameRel_rt _ _ _ hg1)) hu3) hu3
      · exact hu3
    have hu5 : TameRel st u5 := by
      unfold_let u5
      split
      · exact tameRel_ite (tameRel_ite (tameRel_trans hu4 (tameRel_rt _ _ _ hg1)) hu4) hu4
      · exact hu4
    have hu6 : TameRel st u6 := by
      unfold_let u6
      split
      · exact tameRel_ite
          (tameRel_ite (tameRel_trans hu5 (tameRel_rwe _ _ _ _ _ _ _ hg1)) hu5) hu5
      · exact hu5
    have hu7 : TameRel st u7 := by
      unfold_let u7
      split
      · exact tameRel_ite
          (tameRel_ite (tameRel_trans hu6 (tameRel_rwe _ _ _ _ _ _ _ hg1)) hu6) hu6
      · exact hu6
    have hu8 : TameRel st u8 :=
      tameRel_ite (tameRel_trans hu7 (tameRel_rt _ _ _ hg1)) hu7
    have hu9 : TameRel st u9 :=
      tameRel_ite (tameRel_trans hu8 (tameRel_red _ _ _ hg1)) hu8
    exact tameRel_ite (tameRel_trans hu9 (tameRel_rt _ _ _ hg1)) hu8
  · exact tameRel_refl st

theorem keyInvD_nodup {d : List (Str × Str)} {c : Nat} (h : KeyInvD d c) :
    (d.map Prod.fst).Nodup := by
  have hp : (d.map (fun e => keyNum e.1)).Pairwise (· < ·) :=
    List.chain'_iff_pairwise.mp h.1
  have hp2 : ((d.map Prod.fst).map keyNum).Pairwise (· ≠ ·) := by
    rw [List.map_map]
    exact hp.imp (fun hlt => Nat.ne_of_lt hlt)
  exact List.Nodup.of_map _ hp2

theorem keyInvD_nil (c : Nat) : KeyInvD [] c :=
  ⟨List.chain'_nil, fun e he => absurd he (List.not_mem_nil e)⟩

theorem keyFresh {d : List (Str × Str)} {c : Nat} (h : KeyInvD d c)
    (k : Str) (hk : keyNum k = c) : d.any (fun e => e.1 = k) = false := by
  by_contra hx
  simp only [Bool.not_eq_false, List.any_eq_true] at hx
  obtain ⟨e, he, hek⟩ := hx
  have := h.2 e he
  rw [of_decide_eq_true hek, hk] at this
  omega

theorem dictSet_fresh {d : List (Str × Str)} {c : Nat} (h : KeyInvD d c)
    (k v : Str) (hk : keyNum k = c) : dictSet d k v = d ++ [(k, v)] := by
  unfold dictSet
  rw [keyFresh h k hk]
  simp

theorem dictlen_applyMatches (mkRx : Str → Rx) (tmpl : Str)
    (h : goodTmpl tmpl = true) :
    ∀ (ms : List Str) (st : SubState), KeyInvD st.dict st.counter →
      (applyMatches mkRx tmpl ms st).dict.length = st.dict.length + ms.length := by
  intro ms
  induction ms with
  | nil => intro st _; rfl
  | cons m ms ih =>
      intro st hk
      have hnum := keyNum_stamp tmpl st.counter h
      have hset := dictSet_fresh hk (stamp tmpl st.counter) m hnum
      have hinv := (keyInvD_insert hk (stamp tmpl st.counter) m hnum).1
      have hrec := ih { text := pySubFirst (mkRx m) (stamp tmpl st.counter) st.text
                        dict := dictSet st.dict (stamp tmpl st.counter) m
                        counter := st.counter + 1 } hinv
      simp only [applyMatches, List.foldl] at hrec ⊢
      rw [hrec, hset]
      simp only [List.length_append, List.length_cons, List.length_nil,
        List.length_cons]
      omega

theorem exceptPure_ok {α : Type} {a b : α}
    (h : (pure a : Except PyErr α) = Except.ok b) : a = b := by
  simpa [pure, Except.pure] using h

theorem exceptBind_ok {α β : Type} {x : Except PyErr α} {f : α → Except PyErr β}
    {b : β} (h : x >>= f = Except.ok b) :
    ∃ a, x = Except.ok a ∧ f a = Except.ok b := by
  cases x with
  | error e => simp [Bind.bind, Except.bind] at h
  | ok a => exact ⟨a, rfl, by simpa [Bind.bind, Except.bind] using h⟩

theorem tameRel_foldlM {α : Type} (f : SubState → α → Except PyErr SubState)
    (hf : ∀ s x s', f s x = Except.ok s' → TameRel s s') :
    ∀ (l : List α) (st st' : SubState),
      List.foldlM f st l = Except.ok st' → TameRel st st' := by
  intro l
  induction l with
  | nil =>
      intro st st' h
      simp only [List.foldlM] at h
      obtain rfl := exceptPure_ok h
      exact tameRel_refl st
  | cons x xs ih =>
      intro st st' h
      simp only [List.foldlM] at h
      obtain ⟨s, h1, h2⟩ := exceptBind_ok h
      exact tameRel_trans (hf _ _ _ h1) (ih _ _ h2)

theorem keyNum_affix (pre suf : Str) (c : Nat)
    (hp : pre.filter isDigitChar = []) (hs : suf.filter isDigitChar = []) :
    keyNum (pre ++ natToStr c ++ suf) = c := by
  unfold keyNum
  rw [List.filter_append, List.filter_append, hp, hs,
    List.filter_eq_self.mpr (fun a ha => List.all_eq_true.mp (natToStr_all_digits c) a ha)]
  simp [strToNat_natToStr]

theorem tame_rrs {st st' : SubState}
    (h : remove_report_status st = Except.ok st') : TameRel st st' := by
  unfold remove_report_status at h
  refine tameRel_foldlM _ ?_ _ _ _ h
  intro s i s' hs
  split at hs
  · split at hs
    · dsimp only at hs
      split at hs
      · cases hs
        refine ⟨Nat.le_succ _, fun hk => ?_⟩
        exact keyInvD_insert hk _ _ (keyNum_affix _ _ _ (by decide) (by decide))
      · exact Except.noConfusion hs
    · cases hs
      exact tameRel_refl s
  · cases hs
    exact tameRel_refl s

theorem rna_fold_rel :
    ∀ (lines : List Str) (acc r : List Str × List (Str × Str) × Nat),
      lines.foldlM
        (fun (acc : List Str × List (Str × Str) × Nat) line =>
          ((do
            if containsSub "ADDENDUM: >>".data line then
              match pyFindAll addendumRx line with
              | m0 :: _ =>
                  let tid := ("<PERSOON_".data ++ natToStr acc.2.2 ++ [('>' : Char)])
                  match pyDotPatRx m0 with
                  | some rx =>
                      pure (acc.1 ++ [pySubAll rx tid line],
                        dictSet acc.2.1 tid m0, acc.2.2 + 1)
                  | none => throw PyErr.regexErr
              | [] => pure (acc.1 ++ [line], acc.2)
            else pure (acc.1 ++ [line], acc.2)) :
            Except PyErr (List Str × List (Str × Str) × Nat))) acc = Except.ok r →
      acc.2.2 ≤ r.2.2 ∧ (KeyInvD acc.2.1 acc.2.2 →
        KeyInvD r.2.1 r.2.2 ∧ ∃ tl, r.2.1 = acc.2.1 ++ tl) := by
  intro lines
  induction lines with
  | nil =>
      intro acc r h
      simp only [List.foldlM] at h
      obtain rfl := exceptPure_ok h
      exact ⟨Nat.le_refl _, fun hk => ⟨hk, [], by simp⟩⟩
  | cons x xs ih =>
      intro acc r h
      simp only [List.foldlM] at h
      obtain ⟨acc', h1, h2⟩ := exceptBind_ok h
      have step : acc.2.2 ≤ acc'.2.2 ∧ (KeyInvD acc.2.1 acc.2.2 →
          KeyInvD acc'.2.1 acc'.2.2 ∧ ∃ tl, acc'.2.1 = acc.2.1 ++ tl) := by
        split at h1
        · split at h1
          · split at h1
            · obtain rfl := exceptPure_ok h1
              refine ⟨Nat.le_succ _, fun hk => ?_⟩
              exact keyInvD_insert hk _ _ (keyNum_affix _ _ _ (by decide) (by decide))
            · exact Except.noConfusion h1
          · obtain rfl := exceptPure_ok h1
            exact ⟨Nat.le_refl _, fun hk => ⟨hk, [], by simp⟩⟩
        · obtain rfl := exceptPure_ok h1
          exact ⟨Nat.le_refl _, fun hk => ⟨hk, [], by simp⟩⟩
      have rest := ih acc' r h2
      refine ⟨Nat.le_trans step.1 rest.1, fun hk => ?_⟩
      obtain ⟨hk1, tl1, e1⟩ := step.2 hk
      obtain ⟨hk2, tl2, e2⟩ := rest.2 hk1
      exact ⟨hk2, tl1 ++ tl2, by rw [e2, e1, List.append_assoc]⟩

theorem tame_rna {st st' : SubState}
    (h : remove_name_addendum st = Except.ok st') : TameRel st st' := by
  unfold remove_name_addendum at h
  obtain ⟨r, h1, h2⟩ := exceptBind_ok h
  obtain rfl := exceptPure_ok h2
  have hr := rna_fold_rel _ _ _ h1
  exact ⟨hr.1, fun hk => hr.2 hk⟩

theorem revert_aux :
    ∀ (ms : List Str) (s s' : SubState),
      ms.foldlM (fun s m =>
        match dictGet s.dict m with
        | none => Except.error PyErr.keyErr
        | some orig =>
            if orig.contains '\\' then Except.error PyErr.regexErr
            else Except.ok { s with text := pySubFirst (Rx.str m) orig s.text }) s
        = Except.ok s' →
      s'.dict = s.dict ∧ s'.counter = s.counter := by
  intro ms
  induction ms with
  | nil =>
      intro s s' h
      simp only [List.foldlM] at h
      obtain rfl := exceptPure_ok h
      exact ⟨rfl, rfl⟩
  | cons m ms ih =>
      intro s s' h
      simp only [List.foldlM] at h
      obtain ⟨s1, h1, h2⟩ := exceptBind_ok h
      have h3 := ih s1 s' h2
      split at h1
      · exact Except.noConfusion h1
      · split at h1
        · exact Except.noConfusion h1
        · cases h1
          exact ⟨h3.1, h3.2⟩

theorem revert_dc {st st' : SubState}
    (h : revert_intermediate_labels st = Except.ok st') :
    st'.dict = st.dict ∧ st'.counter = st.counter := by
  unfold revert_intermediate_labels at h
  exact revert_aux _ _ _ h

theorem tame_revert {st st' : SubState}
    (h : revert_intermediate_labels st = Except.ok st') : TameRel st st' := by
  obtain ⟨hd, hc⟩ := revert_dc h
  exact ⟨Nat.le_of_eq hc.symm, fun hk => ⟨by rw [hd, hc]; exact hk, [], by rw [hd]; simp⟩⟩

theorem pp_shape {orig : Str} {st : SubState} {t : Str} {a : Ann}
    (h : postprocess_report orig st = Except.ok (t, a)) : a.text = orig := by
  unfold postprocess_report at h
  obtain ⟨r, h1, h2⟩ := exceptBind_ok h
  have h3 := exceptPure_ok h2
  cases h3
  rfl

theorem tameRel_foldl_mem {α : Type} (f : SubState → α → SubState) :
    ∀ (l : List α), (∀ s x, x ∈ l → TameRel s (f s x)) →
      ∀ st, TameRel st (l.foldl f st) := by
  intro l
  induction l with
  | nil => intro _ st; exact tameRel_refl st
  | cons x xs ih =>
      intro hf st
      exact tameRel_trans (hf st x (List.mem_cons_self x xs))
        (ih (fun s y hy => hf s y (List.mem_cons_of_mem x hy)) (f st x))

theorem mergeSteps_snd_good (t : Str) : ∀ p ∈ mergeSteps t, goodTmpl p.2 = true := by
  have hall : ((mergeSteps t).map Prod.snd).all goodTmpl = true := by rfl
  intro p hp
  exact List.all_eq_true.mp hall p.2 (List.mem_map_of_mem Prod.snd hp)

theorem tameRel_ril (st : SubState) : TameRel st (replace_intermediate_labels st) := by
  unfold replace_intermediate_labels
  refine tameRel_foldl _ ?_ _ st
  intro s t
  exact tameRel_foldl_mem _ (mergeSteps t)
    (fun s' p hp => tameRel_rp _ _ _ (mergeSteps_snd_good t p hp)) s

theorem tameRel_phase (R : Resources)
    (person date time phone patient znum repid location : Bool)
    (g5 g4 g3 g2 g1 : List (List Str)) (st0 : SubState) :
    TameRel st0 (
      let st := g5.foldl (fun st g =>
        let st := if person then replace_initials R (replace_family_names R st g) g else st
        if location then replace_cities R st g else st) st0
      let st := g4.foldl (fun st g =>
        let st := if person then replace_family_names R st g else st
        let st := if date then replace_dates R st g else st
        let st := if person then replace_initials R st g else st
        if location then replace_cities R st g else st) st
      let st := g3.foldl (fun st g =>
        let st := if repid then replace_reportid st g else st
        let st := if person then replace_family_names R (replace_titles R st g) g else st
        let st := if phone then replace_phonenumbers R st g else st
        let st := if time then replace_time R st g else st
        let st := if date then replace_dates R st g else st
        let st := if person then replace_initials R st g else st
        if location then replace_cities R st g else st) st
      let st := g2.foldl (fun st g =>
        let st := if repid then replace_reportid st g else st
        let st :=
          if person then
            replace_family_names R (replace_cues R (replace_titles R st g) g) g
          else st
        let st := if time then replace_time R st g else st
        let st := if date then replace_dates R st g else st
        let st := if phone then replace_phonenumbers R st g else st
        let st := if person then replace_initials R st g else st
        if location then replace_cities R st g else st) st
      let st := g1.foldl (fun st g =>
        let st :=
          if person then
            replace_family_names R (replace_cues R (replace_titles R st g) g) g
          else st
        let st := if patient then replace_patientnumber st g else st
        let st := if znum then replace_znumber st g else st
        let st := if phone then replace_phonenumbers R st g else st
        let st := if date then replace_dates R st g else st
        let st := if time then replace_time R st g else st
        let st := if person then replace_initials R st g else st
        let st := if person then replace_firstnames R st g else st
        if location then replace_cities R st g else st) st
      st) := by
  lift_lets
  intro a5 a4 a3 a2 a1
  have h5 : TameRel st0 a5 := by
    unfold_let a5
    refine tameRel_foldl _ ?_ _ _
    intro s g
    beta_reduce
    lift_lets
    intro w1
    have hw1 : TameRel s w1 :=
      tameRel_ite (tameRel_trans (tameRel_family_names R g s) (tameRel_initials R g _))
        (tameRel_refl s)
    exact tameRel_ite (tameRel_trans hw1 (tameRel_cities R g _)) hw1
  have h4 : TameRel st0 a4 := by
    unfold_let a4
    refine tameRel_trans h5 (tameRel_foldl _ ?_ _ _)
    intro s g
    beta_reduce
    lift_lets
    intro w1 w2 w3
    have hw1 : TameRel s w1 := tameRel_ite (tameRel_family_names R g s) (tameRel_refl s)
    have hw2 : TameRel s w2 := tameRel_ite (tameRel_trans hw1 (tameRel_dates R g _)) hw1
    have hw3 : TameRel s w3 := tameRel_ite (tameRel_trans hw2 (tameRel_initials R g _)) hw2
    exact tameRel_ite (tameRel_trans hw3 (tameRel_cities R g _)) hw3
  have h3 : TameRel st0 a3 := by
    unfold_let a3
    refine tameRel_trans h4 (tameRel_foldl _ ?_ _ _)
    intro s g
    beta_reduce
    lift_lets
    intro w1 w2 w3 w4 w5 w6
    have hw1 : TameRel s w1 := tameRel_ite (tameRel_reportid g s) (tameRel_refl s)
    have hw2 : TameRel s w2 :=
      tameRel_ite
        (tameRel_trans hw1
          (tameRel_trans (tameRel_titles R g _) (tameRel_family_names R g _))) hw1
    have hw3 : TameRel s w3 := tameRel_ite (tameRel_trans hw2 (tameRel_phonenumbers R g _)) hw2
    have hw4 : TameRel s w4 := tameRel_ite (tameRel_trans hw3 (tameRel_time R g _)) hw3
    have hw5 : TameRel s w5 := tameRel_ite (tameRel_trans hw4 (tameRel_dates R g _)) hw4
    have hw6 : TameRel s w6 := tameRel_ite (tameRel_trans hw5 (tameRel_initials R g _)) hw5
    exact tameRel_ite (tameRel_trans hw6 (tameRel_cities R g _)) hw6
  have h2 : TameRel st0 a2 := by
    unfold_let a2
    refine tameRel_trans h3 (tameRel_foldl _ ?_ _ _)
    intro s g
    beta_reduce
    lift_lets
    intro w1 w2 w3 w4 w5 w6
    have hw1 : TameRel s w1 := tameRel_ite (tameRel_reportid g s) (tameRel_refl s)
    have hw2 : TameRel s w2 :=
      tameRel_ite
        (tameRel_trans hw1
          (tameRel_trans (tameRel_titles R g _)
            (tameRel_trans (tameRel_cues R g _) (tameRel_family_names R g _)))) hw1
    have hw3 : TameRel s w3 := tameRel_ite (tameRel_trans hw2 (tameRel_time R g _)) hw2
    have hw4 : TameRel s w4 := tameRel_ite (tameRel_trans hw3 (tameRel_dates R g _)) hw3
    have hw5 : TameRel s w5 := tameRel_ite (tameRel_trans hw4 (tameRel_phonenumbers R g _)) hw4
    have hw6 : TameRel s w6 := tameRel_ite (tameRel_trans hw5 (tameRel_initials R g _)) hw5
    exact tameRel_ite (tameRel_trans hw6 (tameRel_cities R g _)) hw6
  have h1 : TameRel st0 a1 := by
    unfold_let a1
    refine tameRel_trans h2 (tameRel_foldl _ ?_ _ _)
    intro s g
    beta_reduce
    lift_lets
    intro w1 w2 w3 w4 w5 w6 w7 w8
    have hw1 : TameRel s w1 :=
      tameRel_ite
        (tameRel_trans (tameRel_titles R g s)
          (tameRel_trans (tameRel_cues R g _) (tameRel_family_names R g _)))
        (tameRel_refl s)
    have hw2 : TameRel s w2 := tameRel_ite (tameRel_trans hw1 (tameRel_patientnumber g _)) hw1
    have hw3 : TameRel s w3 := tameRel_ite (tameRel_trans hw2 (tameRel_znumber g _)) hw2
    have hw4 : TameRel s w4 := tameRel_ite (tameRel_trans hw3 (tameRel_phonenumbers R g _)) hw3
    have hw5 : TameRel s w5 := tameRel_ite (tameRel_trans hw4 (tameRel_dates R g _)) hw4
    have hw6 : TameRel s w6 := tameRel_ite (tameRel_trans hw5 (tameRel_time R g _)) hw5
    have hw7 : TameRel s w7 := tameRel_ite (tameRel_trans hw6 (tameRel_initials R g _)) hw6
    have hw8 : TameRel s w8 := tameRel_ite (tameRel_trans hw7 (tameRel_firstnames R g _)) hw7
    exact tameRel_ite (tameRel_trans hw8 (tameRel_cities R g _)) hw8
  exact h1

theorem anonymize_ok_shape (R : Resources) (ents : List Str) (e : Engine)
    (r t : Str) (e' : Engine)
    (h : anonymize_report R ents e r = Except.ok (t, e')) :
    e.counter ≤ e'.counter ∧ e'.replace_dict = [] ∧
      ∃ a, e'.annots = e.annots ++ [a] ∧ a.text = clean_report r := by
  unfold anonymize_report at h
  obtain ⟨st1, hpre, h⟩ := exceptBind_ok h
  obtain ⟨st2, hrev, h⟩ := exceptBind_ok h
  obtain ⟨p, hpp, h⟩ := exceptBind_ok h
  rcases p with ⟨ft, ann⟩
  have hfin := exceptPure_ok h
  cases hfin
  have hpre' : TameRel ⟨clean_report r, e.replace_dict, e.counter⟩ st1 := by
    split at hpre
    · obtain ⟨s, ha, hb⟩ := exceptBind_ok hpre
      exact tameRel_trans (tame_rrs ha) (tame_rna hb)
    · obtain rfl := exceptPure_ok hpre
      exact tameRel_refl _
  have hrd := revert_dc hrev
  refine ⟨?_, rfl, ann, rfl, pp_shape hpp⟩
  calc e.counter ≤ st1.counter := hpre'.1
    _ ≤ st2.counter := by
        rw [hrd.2]
        exact (tameRel_trans
          (tameRel_phase R _ _ _ _ _ _ _ _ _ _ _ _ _ st1) (tameRel_ril _)).1

/-- C1, counterexample: in the report "x14-01-2020" the date "14-01-2020"
(day 14 in [1,31], month 01 in [1,12], year 2020 starting with 20, joined by
hyphens) appears, "date" is among the enabled entity kinds, and yet
anonymize_report returns the text unchanged: no date tag is present and the
full date string still appears in the output, refuting the claim that every
report containing such a literal date form gets the span tagged and no part
of the date leaks. -/
theorem c1_date_counterexample :
    pyIsDigit "14".data = true ∧ inRange 1 31 "14".data = true ∧
    pyIsDigit "01".data = true ∧ inRange 1 12 "01".data = true ∧
    pfx19or20 "2020".data = true ∧
    allEntities.contains "date".data = true ∧
    containsSub "14-01-2020".data c1Input = true ∧
    resOk c1Res = true ∧
    resText c1Res = c1Input ∧
    containsSub "14-01-2020".data (resText c1Res) = true ∧
    containsSub "<DATUM>".data (resText c1Res) = false := by
  refine ⟨rfl, rfl, rfl, rfl, rfl, rfl, rfl, ?_, ?_, rfl, rfl⟩ <;> rfl

/-- C3, counterexample: on "Dr. J. Hendrix, internist", with the surname
lookup set containing "hendrix" and the title lists containing "dr"
(before-name) and "internist" (after-name), the returned text is NOT
"<PERSOON>, <TITELS_ACHTER>": the trailing title label is reverted to its
original text by revert_intermediate_labels, so no title tag remains. -/
theorem c3_chain_counterexample :
    rraRes.family_names.contains "hendrix".data = true ∧
    (rraRes.titles_before_full ++ rraRes.titles_before_abbr).contains "dr".data = true ∧
    (rraRes.titles_after_full ++ rraRes.titles_after_abbr).contains "internist".data
      = true ∧
    allEntities.contains "person".data = true ∧
    resOk c3Res = true ∧
    ¬ resText c3Res = "<PERSOON>, <TITELS_ACHTER>".data := by
  refine ⟨rfl, rfl, rfl, rfl, ?_, ?_⟩
  · rfl
  · decide

/-- C3, amended: on "Dr. J. Hendrix, internist" the title-before, initials
and surname chunk merges into a single person tag, but the trailing
unchained title is treated as a leftover and reverted to its original text,
so the returned text is exactly "<PERSOON>, internist", with one annotation
span [0, 14) covering "Dr. J. Hendrix". -/
theorem c3_chain_amended :
    resText c3Res = "<PERSOON>, internist".data ∧
    resAnns c3Res = [{ text := c3Input, labels := [(0, 14, "<PERSOON>".data)] }] := by
  exact ⟨rfl, rfl⟩

/-- C9: anonymize_report is not total.  The report-status preprocessor
passes the captured 4-line window to re.sub as an unescaped pattern; on this
input the window's name line "Ab(" contains an unbalanced parenthesis, the
pattern does not compile, and the engine raises instead of returning.  The
window otherwise satisfies the structural conditions (two blank lines, a
capitalized name line, a "verslagstatus" line). -/
theorem c9_totality_code_bug :
    anonymize_report rraRes allEntities initEngine c9Input =
      Except.error PyErr.regexErr := by
  rfl

/-- C2: the appended annotation is not round-trip consistent with the
returned text.  The report-status preprocessor replaces BOTH occurrences of
the duplicated 4-line window with the SAME counter label (re.sub without a
count), so in postprocessing the second find() of that label returns -1 and
a span [-1, 18) is recorded; reconstructing from the annotation yields a
text different from the anonymized output. -/
theorem c2_roundtrip_code_bug :
    c2Res = Except.ok ("a\n<GEAUTORISEERD>\n<GEAUTORISEERD>".data,
      { replace_dict := [], counter := 10002, original_report := c2Input
        annots := [c2Ann] }) ∧
    ¬ reconstruct c2Ann = resText c2Res := by
  refine ⟨?_, ?_⟩
  · rfl
  · decide

/-- C10, counterexample: the annotation text field does equal the cleaned
report, but not every recorded span offset indexes into it: on this report
(two identical report-status windows collapsed onto one label) a span with
start -1 is recorded, refuting the claim's conjunct that all recorded span
offsets index into the cleaned string. -/
theorem c10_annotation_counterexample :
    resOk c10Res = true ∧
    resAnns c10Res = [c10Ann] ∧
    ((resAnns c10Res).flatMap (fun a => a.labels)).any
      (fun l => decide (l.1 < 0)) = true := by
  refine ⟨?_, ?_, ?_⟩
  · rfl
  · rfl
  · decide

/-- C6, counterexample: a report whose raw text already contains a
label-shaped token violates the invariant as stated: right after cleaning
(the first point of the report's processing) the working text contains
<FOO_12345> while the replacement map of the fresh engine is empty; the
engine even aborts with a KeyError in postprocessing on this input. -/
theorem c6_label_inv_counterexample :
    ¬ LabelInv { text := clean_report c6Input, dict := initEngine.replace_dict
                 counter := initEngine.counter } ∧
    anonymize_report rraRes allEntities initEngine c6Input =
      Except.error PyErr.keyErr := by
  constructor
  · intro h
    exact absurd (h "<FOO_12345>".data (by decide)) (by decide)
  · rfl

/-- C7, counterexample: on a report with the window [blank, blank, "Naam",
"verslagstatus x"], remove_report_status does NOT leave the two blank lines
and the verslagstatus line in place: the ENTIRE 4-line window (blank lines
and verslagstatus line included) is replaced by the single GEAUTORISEERD
label, so neither "verslagstatus" nor the blank lines survive. -/
theorem c7_report_status_counterexample :
    remove_report_status c7St =
      Except.ok { text := "r\n<GEAUTORISEERD_10000>".data
                  dict := [("<GEAUTORISEERD_10000>".data,
                    "\n\nNaam\nverslagstatus x".data)]
                  counter := 10001 } ∧
    containsSub "verslagstatus".data "r\n<GEAUTORISEERD_10000>".data = false ∧
    containsSub "\n\n".data "r\n<GEAUTORISEERD_10000>".data = false := by
  exact ⟨rfl, rfl, rfl⟩

/-- C4: a capitalized token whose lowercase form is both in the family-name
set and in the whitelist, with no adjacent person context, is never tagged
as a person.  First the general reversion fact: whenever the working text
holds a leftover whitelist-surname label (and no other person-related
leftover), revert_intermediate_labels restores its recorded original text
verbatim.  Second the end-to-end instance: "Mol" (family name and
whitelisted, capitalized, no adjacent cue/title/initials/first-name) comes
back verbatim, with no <PERSOON> tag and no annotation span. -/
theorem c4_whitelist_surname_reverted :
    (∀ st m v,
      (∀ k ∈ [kINI, kTV, kTA, kTVA, kACH, kHV, kHA, kVN],
        pyFindAll (labRx k) st.text = []) →
      pyFindAll (labRx kWACH) st.text = [m] →
      dictGet st.dict m = some v →
      v.contains '\\' = false →
      revert_intermediate_labels st =
        Except.ok { st with text := pySubFirst (Rx.str m) v st.text }) ∧
    rraRes.family_names.contains "mol".data = true ∧
    rraRes.whitelist.contains "mol".data = true ∧
    headUpper "Mol".data = true ∧
    resText c4Res = c4Input ∧
    containsSub "<PERSOON>".data (resText c4Res) = false ∧
    resAnns c4Res = [{ text := c4Input, labels := [] }] := by
  refine ⟨?_, rfl, rfl, rfl, ?_, ?_, ?_⟩
  · intro st m v h0 h1 h2 h3
    have hINI := h0 kINI (by simp)
    have hTV := h0 kTV (by simp)
    have hTA := h0 kTA (by simp)
    have hTVA := h0 kTVA (by simp)
    have hACH := h0 kACH (by simp)
    have hHV := h0 kHV (by simp)
    have hHA := h0 kHA (by simp)
    have hVN := h0 kVN (by simp)
    unfold revert_intermediate_labels
    simp only [List.map_cons, List.map_nil, hINI, hTV, hTA, hTVA, hACH, hHV,
      hHA, hVN, h1, List.flatten, List.append_nil, List.nil_append,
      List.foldlM, h2, h3, bind, Except.bind]
    rfl
  · rfl
  · rfl
  · rfl

/-- C4, witness: the general part applied at the concrete post-merger state
of the "Mol fietst" run. -/
theorem c4_whitelist_surname_reverted_witness :
    revert_intermediate_labels
      { text := "<W_ACHTERNAAM_10000> fietst".data
        dict := [("<W_ACHTERNAAM_10000>".data, "Mol".data)]
        counter := 10001 } =
      Except.ok
        { text := pySubFirst (Rx.str "<W_ACHTERNAAM_10000>".data) "Mol".data
            "<W_ACHTERNAAM_10000> fietst".data
          dict := [("<W_ACHTERNAAM_10000>".data, "Mol".data)]
          counter := 10001 } :=
  c4_whitelist_surname_reverted.1 _ "<W_ACHTERNAAM_10000>".data "Mol".data
    (by decide) (by decide) (by rfl) (by rfl)


/-- C1, amended: for reports that consist exactly of a date in one of the
three literal forms (numeric with hyphens, numeric with slashes, or
day + Dutch month name + year as space-separated tokens), the full span is
replaced: the output text is exactly the canonical date tag, so no part of
the date leaks into the output.  (The original claim fails when the date is
glued to word characters; see the counterexample.) -/
theorem c1_date_amended :
    resText (anonymize_report rraRes allEntities initEngine "14-01-2020".data) =
      "<DATUM>".data ∧
    resText (anonymize_report rraRes allEntities initEngine "14/01/2020".data) =
      "<DATUM>".data ∧
    resText (anonymize_report rraRes allEntities initEngine "14 januari 2020".data) =
      "<DATUM>".data :=
  ⟨rfl, rfl, rfl⟩

/-- C5: the engine counter starts at 10000; the shared substitution loop of
the primitives increments it by exactly one per recorded replacement-map
entry (one per previously found match, with one new map entry each); and a
successful anonymize_report call never decreases it — the returned engine
carries the final counter (not reset) while its replacement map is cleared. -/
theorem c5_counter_discipline :
    initEngine.counter = 10000 ∧
    (∀ (mkRx : Str → Rx) (tmpl : Str) (ms : List Str) (st : SubState),
        goodTmpl tmpl = true → KeyInvD st.dict st.counter →
        (applyMatches mkRx tmpl ms st).counter = st.counter + ms.length ∧
        (applyMatches mkRx tmpl ms st).dict.length = st.dict.length + ms.length) ∧
    (∀ (R : Resources) (ents : List Str) (e : Engine) (r t : Str) (e' : Engine),
        anonymize_report R ents e r = Except.ok (t, e') →
        e.counter ≤ e'.counter ∧ e'.replace_dict = []) := by
  refine ⟨rfl, ?_, ?_⟩
  · intro mkRx tmpl ms st hg hk
    exact ⟨counter_applyMatches mkRx tmpl ms st, dictlen_applyMatches mkRx tmpl hg ms st hk⟩
  · intro R ents e r t e' h
    have hs := anonymize_ok_shape R ents e r t e' h
    exact ⟨hs.1, hs.2.1⟩

/-- C5, witness: concrete instances of all three parts: the concrete engine
run on "Mol fietst" keeps the counter at least 10000 and returns a cleared
replacement map, and one applyMatches call from the base state advances the
counter by exactly the number of matches. -/
theorem c5_counter_discipline_witness :
    (10000 ≤ (resEngine c4Res).counter ∧ (resEngine c4Res).replace_dict = []) ∧
    (applyMatches Rx.str "<PERSOON_$>".data ["ab".data]
        ⟨"ab".data, [], 10000⟩).counter = 10001 := by
  refine ⟨?_, ?_⟩
  · exact c5_counter_discipline.2.2 rraRes allEntities initEngine c4Input
      (resText c4Res) (resEngine c4Res) rfl
  · exact (c5_counter_discipline.2.1 Rx.str "<PERSOON_$>".data ["ab".data]
      ⟨"ab".data, [], 10000⟩ (by decide) (keyInvD_nil 10000)).1

/-- C6, amended: what survives of the label/map invariant is uniqueness of
substitution events: under the key invariant (map keys carry strictly
increasing counter stamps below the current counter) all replacement-map
keys are pairwise distinct — no two substitutions share a counter value —
and the invariant is preserved by every substitution primitive, every
detector, the merger, both preprocessors (on success) and reversion (which
leaves map and counter untouched).  The text-side of the original claim is
false: label-shaped text the raw report already contains has no map entry
(see the counterexample). -/
theorem c6_substitution_uniqueness :
    (∀ (d : List (Str × Str)) (c : Nat), KeyInvD d c → (d.map Prod.fst).Nodup) ∧
    (∀ (st : SubState) (L tmpl : Str), goodTmpl tmpl = true →
        KeyInvD st.dict st.counter →
        KeyInvD (replace_text st L tmpl).dict (replace_text st L tmpl).counter) ∧
    (∀ (R : Resources) (tokens : List Str) (st : SubState),
        KeyInvD st.dict st.counter →
        KeyInvD (replace_family_names R st tokens).dict
          (replace_family_names R st tokens).counter ∧
        KeyInvD (replace_initials R st tokens).dict
          (replace_initials R st tokens).counter ∧
        KeyInvD (replace_dates R st tokens).dict
          (replace_dates R st tokens).counter ∧
        KeyInvD (replace_titles R st tokens).dict
          (replace_titles R st tokens).counter ∧
        KeyInvD (replace_phonenumbers R st tokens).dict
          (replace_phonenumbers R st tokens).counter ∧
        KeyInvD (replace_time R st tokens).dict
          (replace_time R st tokens).counter ∧
        KeyInvD (replace_cues R st tokens).dict
          (replace_cues R st tokens).counter ∧
        KeyInvD (replace_patientnumber st tokens).dict
          (replace_patientnumber st tokens).counter ∧
        KeyInvD (replace_znumber st tokens).dict
          (replace_znumber st tokens).counter ∧
        KeyInvD (replace_firstnames R st tokens).dict
          (replace_firstnames R st tokens).counter ∧
        KeyInvD (replace_reportid st tokens).dict
          (replace_reportid st tokens).counter ∧
        KeyInvD (replace_cities R st tokens).dict
          (replace_cities R st tokens).counter) ∧
    (∀ st : SubState, KeyInvD st.dict st.counter →
        KeyInvD (replace_intermediate_labels st).dict
          (replace_intermediate_labels st).counter) ∧
    (∀ (st st' : SubState), remove_report_status st = Except.ok st' →
        KeyInvD st.dict st.counter → KeyInvD st'.dict st'.counter) ∧
    (∀ (st st' : SubState), remove_name_addendum st = Except.ok st' →
        KeyInvD st.dict st.counter → KeyInvD st'.dict st'.counter) ∧
    (∀ (st st' : SubState), revert_intermediate_labels st = Except.ok st' →
        st'.dict = st.dict ∧ st'.counter = st.counter) := by
  refine ⟨fun d c h => keyInvD_nodup h, ?_, ?_, ?_, ?_, ?_, ?_⟩
  · intro st L tmpl hg hk
    exact ((tameRel_rt st L tmpl hg).2 hk).1
  · intro R tokens st hk
    exact ⟨((tameRel_family_names R tokens st).2 hk).1,
      ((tameRel_initials R tokens st).2 hk).1,
      ((tameRel_dates R tokens st).2 hk).1,
      ((tameRel_titles R tokens st).2 hk).1,
      ((tameRel_phonenumbers R tokens st).2 hk).1,
      ((tameRel_time R tokens st).2 hk).1,
      ((tameRel_cues R tokens st).2 hk).1,
      ((tameRel_patientnumber tokens st).2 hk).1,
      ((tameRel_znumber tokens st).2 hk).1,
      ((tameRel_firstnames R tokens st).2 hk).1,
      ((tameRel_reportid tokens st).2 hk).1,
      ((tameRel_cities R tokens st).2 hk).1⟩
  · intro st hk
    exact ((tameRel_ril st).2 hk).1
  · intro st st' h hk
    exact ((tame_rrs h).2 hk).1
  · intro st st' h hk
    exact ((tame_rna h).2 hk).1
  · intro st st' h
    exact revert_dc h

/-- C6, witness: a concrete two-entry replacement map satisfying the key
invariant, whose keys the amended theorem shows distinct, and a concrete
replace_text step preserving the invariant. -/
theorem c6_substitution_uniqueness_witness :
    KeyInvD [("<DATUM_10000>".data, "14-01-2020".data),
      ("<TIJD_10001>".data, "12:30".data)] 10002 ∧
    ([("<DATUM_10000>".data, "14-01-2020".data),
      ("<TIJD_10001>".data, "12:30".data)].map Prod.fst).Nodup := by
  have h1 := keyInvD_insert (keyInvD_nil 10000) "<DATUM_10000>".data
    "14-01-2020".data (by decide)
  have h2 := keyInvD_insert h1.1 "<TIJD_10001>".data "12:30".data (by decide)
  exact ⟨h2.1, c6_substitution_uniqueness.1 _ _ h2.1⟩

/-- C7, amended: on the window [blank, blank, "Naam", "verslagstatus x"]
the report-status preprocessor does find the block, but it replaces the
entire four-line window (newlines, name line and verslagstatus line
together) with a single fresh GEAUTORISEERD label and records the whole
window as the original — it does not leave the blank lines and the
verslagstatus line in place as the original claim states. -/
theorem c7_report_status_amended :
    remove_report_status c7St = Except.ok
      ⟨"r\n<GEAUTORISEERD_10000>".data,
        [("<GEAUTORISEERD_10000>".data, "\n\nNaam\nverslagstatus x".data)],
        10001⟩ := rfl

/-- C10, amended: the annotation appended by a successful anonymize_report
call always carries the cleaned report as its text field (postprocessing
stores the cleaned original, never the raw input); the span-validity part
of the original claim is dropped — spans are not always valid indices (see
the counterexample, which records a span starting at -1). -/
theorem c10_annotation_amended :
    ∀ (R : Resources) (ents : List Str) (e : Engine) (r t : Str) (e' : Engine),
      anonymize_report R ents e r = Except.ok (t, e') →
      ∃ a, e'.annots = e.annots ++ [a] ∧ a.text = clean_report r := by
  intro R ents e r t e' h
  exact (anonymize_ok_shape R ents e r t e' h).2.2

/-- C10, witness: the concrete run on "Mol fietst" appends exactly one
annotation record whose text is the cleaned input. -/
theorem c10_annotation_amended_witness :
    ∃ a, (resEngine c4Res).annots = [] ++ [a] ∧ a.text = clean_report c4Input :=
  c10_annotation_amended rraRes allEntities initEngine c4Input
    (resText c4Res) (resEngine c4Res) rfl

end RRA
